import Mathlib

/-!
Verification development for the My_Kingdom colony-sim repository.

The Python sources are shallowly embedded as pure Lean functions:
* Python `float` values become `ℚ` (all arithmetic appearing in the verified
  code paths is exact decimal arithmetic, so this is faithful; the two places
  where the source compares a `sqrt` against a nonnegative bound are embedded
  by the equivalent squared comparison).
* Python `int` becomes `ℤ` (or `ℕ` for loop counters coming from `range`).
* Python dicts keyed by strings / ints become association lists with
  first-occurrence lookup and replace-first update, which matches dict
  semantics (reads and writes address the unique binding of a key).
* The external `opensimplex.OpenSimplex(seed).noise2` generator is a pure
  function of (seed, x, y); it is abstracted as an explicit function
  parameter `ℚ → ℚ → ℚ`, so theorems quantify over every possible noise
  channel.
* Calls to the global `random` module are modelled by an explicit RNG state
  `Rng` holding one stream for `random.random()` draws and one for
  `random.randint` draws, consumed in program order.  Universal theorems
  quantify over the streams; counterexamples instantiate them.
-/

set_option maxRecDepth 4000

namespace MyKingdom

/-! ### Generic helpers: Python ranges, truncation, dicts -/

/-- Python `range(a, b)` as a list of integers. -/
def pyRange (a b : ℤ) : List ℤ :=
  (List.range (b - a).toNat).map (fun (i : ℕ) => a + (i : ℤ))

/-- Python `int(q)` on a float: truncation toward zero. -/
def pyInt (q : ℚ) : ℤ :=
  if 0 ≤ q then ⌊q⌋ else ⌈q⌉

/-- Python `max(0, min(1, q))`, used to clamp generated values to [0,1]. -/
def clamp01 (q : ℚ) : ℚ := max 0 (min 1 q)

/-- Python `d.get(k, dflt)`: value of the first binding of `k`, else `dflt`. -/
def dictGet {α β : Type} [DecidableEq α] (d : List (α × β)) (k : α) (dflt : β) : β :=
  match d with
  | [] => dflt
  | (k2, v) :: rest => if k2 = k then v else dictGet rest k dflt

/-- Python `d[k] = v`: replace the binding of `k`, or append a new one. -/
def dictSet {α β : Type} [DecidableEq α] (d : List (α × β)) (k : α) (v : β) :
    List (α × β) :=
  match d with
  | [] => [(k, v)]
  | (k2, v2) :: rest => if k2 = k then (k, v) :: rest else (k2, v2) :: dictSet rest k v

/-- Python `del d[k]`: drop the binding of `k`. -/
def dictRemove {α β : Type} [DecidableEq α] (d : List (α × β)) (k : α) :
    List (α × β) :=
  match d with
  | [] => []
  | (k2, v2) :: rest => if k2 = k then rest else (k2, v2) :: dictRemove rest k

/-- Python `k in d` for a dict. -/
def dictMem {α β : Type} [DecidableEq α] (d : List (α × β)) (k : α) : Bool :=
  match d with
  | [] => false
  | (k2, _) :: rest => if k2 = k then true else dictMem rest k

/-- Python `sum(d.values())`. -/
def dictValuesSum (d : List (String × ℤ)) : ℤ := (d.map Prod.snd).sum

/-! ### Explicit RNG state, modelling the global `random` module.

`floats` enumerates the successive results of `random.random()` (values in
[0,1) in Python) and `ints` the successive raw draws backing
`random.randint(a, b)`, reduced into [a, b] by a modulus.  Any sequence of
values the Python RNG can produce is an instance of this model. -/

structure Rng where
  floats : ℕ → ℚ
  ints : ℕ → ℕ
  fpos : ℕ := 0
  ipos : ℕ := 0

/-- One `random.random()` draw. -/
def Rng.random (r : Rng) : ℚ × Rng :=
  (r.floats r.fpos, { r with fpos := r.fpos + 1 })

/-- One `random.randint(a, b)` draw (inclusive bounds, as in Python). -/
def Rng.randint (r : Rng) (a b : ℤ) : ℤ × Rng :=
  (a + (r.ints r.ipos : ℤ) % (b - a + 1), { r with ipos := r.ipos + 1 })

/-! ### src/entities/resource.py -/

inductive ResourceType where
  | tree | stone | berry_bush | iron_ore
deriving DecidableEq, Repr

structure Resource where
  resource_type : ResourceType
  x : ℤ
  y : ℤ
  amount_remaining : ℤ := 100
  max_amount : ℤ := 100
  gather_time : ℚ := 3
  provides_resource : String := "wood"
  provides_amount : ℤ := 10
  is_depleted : Bool := false
  currently_being_gathered : Bool := false
  assigned_citizen_id : Option ℤ := none
  designated : Bool := false
deriving DecidableEq, Repr

/-- `Resource(resource_type=rt, x=x, y=y)` followed by `__post_init__`. -/
def mkResource (rt : ResourceType) (x y : ℤ) : Resource :=
  let base : Resource := { resource_type := rt, x := x, y := y }
  match rt with
  | ResourceType.tree =>
      { base with provides_resource := ("wood"), provides_amount := 4,
                  gather_time := 3, max_amount := 4, amount_remaining := 4 }
  | ResourceType.stone =>
      { base with provides_resource := ("stone"), provides_amount := 8,
                  gather_time := 5, max_amount := 24, amount_remaining := 24 }
  | ResourceType.berry_bush =>
      { base with provides_resource := ("food"), provides_amount := 5,
                  gather_time := 2, max_amount := 25, amount_remaining := 25 }
  | ResourceType.iron_ore =>
      { base with provides_resource := ("iron"), provides_amount := 5,
                  gather_time := 6, max_amount := 60, amount_remaining := 60 }

/-- `Resource.gather`: returns `(resource, amount)` (with `none` standing for
Python's `None`) together with the mutated node. -/
def Resource.gather (r : Resource) : (Option String × ℤ) × Resource :=
  if r.is_depleted ∨ r.amount_remaining ≤ 0 then
    ((none, 0), { r with is_depleted := true })
  else
    let gather_amount := min r.provides_amount r.amount_remaining
    let remaining := r.amount_remaining - gather_amount
    if remaining ≤ 0 then
      ((some r.provides_resource, gather_amount),
       { r with amount_remaining := remaining, is_depleted := true })
    else
      ((some r.provides_resource, gather_amount),
       { r with amount_remaining := remaining })

/-- `Resource.assign_citizen`. -/
def Resource.assign_citizen (r : Resource) (citizen_id : ℤ) : Resource :=
  { r with currently_being_gathered := true, assigned_citizen_id := some citizen_id }

/-- `Resource.unassign_citizen`. -/
def Resource.unassign_citizen (r : Resource) : Resource :=
  { r with currently_being_gathered := false, assigned_citizen_id := none }

/-- The node after `n` successive `gather()` calls. -/
def gatherIter (r : Resource) : ℕ → Resource
  | 0 => r
  | n + 1 => (gatherIter r n).gather.2

/-! ### src/world/biomes.py -/

inductive BiomeType where
  | temperate_forest | grassland | boreal_forest | tundra
  | desert | tropical_rainforest | arid_shrubland | wetland
deriving DecidableEq, Repr

/-- Numeric/climate fields of `BiomeProperties` (the purely visual fields —
colors, ambient tint, description — are omitted; no verified code path reads
them). -/
structure BiomeProperties where
  name : String
  min_temperature : ℚ
  max_temperature : ℚ
  min_rainfall : ℚ
  max_rainfall : ℚ
  tree_density : ℚ
  rock_density : ℚ
  fertility : ℚ
deriving DecidableEq, Repr

/-- `BIOME_DEFINITIONS`, in dict insertion order (Python dicts iterate in
insertion order). -/
def BIOME_DEFINITIONS : List (BiomeType × BiomeProperties) :=
  [ (BiomeType.temperate_forest,
      { name := ("Temperate Forest"), min_temperature := -0.2, max_temperature := 0.6,
        min_rainfall := 0.4, max_rainfall := 0.8,
        tree_density := 0.4, rock_density := 0.1, fertility := 0.8 }),
    (BiomeType.grassland,
      { name := ("Grassland"), min_temperature := 0.0, max_temperature := 0.7,
        min_rainfall := 0.3, max_rainfall := 0.6,
        tree_density := 0.1, rock_density := 0.05, fertility := 0.9 }),
    (BiomeType.boreal_forest,
      { name := ("Boreal Forest"), min_temperature := -0.6, max_temperature := 0.2,
        min_rainfall := 0.4, max_rainfall := 0.7,
        tree_density := 0.5, rock_density := 0.15, fertility := 0.4 }),
    (BiomeType.tundra,
      { name := ("Tundra"), min_temperature := -0.8, max_temperature := -0.2,
        min_rainfall := 0.2, max_rainfall := 0.5,
        tree_density := 0.05, rock_density := 0.25, fertility := 0.2 }),
    (BiomeType.desert,
      { name := ("Desert"), min_temperature := 0.5, max_temperature := 1.0,
        min_rainfall := 0.0, max_rainfall := 0.2,
        tree_density := 0.02, rock_density := 0.3, fertility := 0.1 }),
    (BiomeType.tropical_rainforest,
      { name := ("Tropical Rainforest"), min_temperature := 0.6, max_temperature := 1.0,
        min_rainfall := 0.7, max_rainfall := 1.0,
        tree_density := 0.7, rock_density := 0.05, fertility := 0.7 }),
    (BiomeType.arid_shrubland,
      { name := ("Arid Shrubland"), min_temperature := 0.3, max_temperature := 0.8,
        min_rainfall := 0.2, max_rainfall := 0.4,
        tree_density := 0.15, rock_density := 0.2, fertility := 0.4 }),
    (BiomeType.wetland,
      { name := ("Wetland"), min_temperature := -0.1, max_temperature := 0.5,
        min_rainfall := 0.6, max_rainfall := 1.0,
        tree_density := 0.25, rock_density := 0.05, fertility := 0.6 }) ]

/-- `get_biome_properties`. -/
def get_biome_properties (b : BiomeType) : BiomeProperties :=
  (dictGet BIOME_DEFINITIONS b
    { name := (""), min_temperature := 0, max_temperature := 0,
      min_rainfall := 0, max_rainfall := 0,
      tree_density := 0, rock_density := 0, fertility := 0 })

/-- The `temp_match` factor computed inside `get_biome_from_climate`. -/
def temp_match (p : BiomeProperties) (temperature : ℚ) : ℚ :=
  if temperature < p.min_temperature then 1 - (p.min_temperature - temperature)
  else if temperature > p.max_temperature then 1 - (temperature - p.max_temperature)
  else 1

/-- The `rain_match` factor computed inside `get_biome_from_climate`. -/
def rain_match (p : BiomeProperties) (rainfall : ℚ) : ℚ :=
  if rainfall < p.min_rainfall then 1 - (p.min_rainfall - rainfall)
  else if rainfall > p.max_rainfall then 1 - (rainfall - p.max_rainfall)
  else 1

/-- The combined `score = temp_match * rain_match`. -/
def biomeScore (p : BiomeProperties) (temperature rainfall : ℚ) : ℚ :=
  temp_match p temperature * rain_match p rainfall

/-- One iteration of the best-score loop in `get_biome_from_climate`.  The
accumulator has an `Option ℚ` component modelling `best_score`, with `none`
standing for the initial negative infinity (every real score is strictly
greater). -/
def biomeStep (temperature rainfall : ℚ) (acc : BiomeType × Option ℚ)
    (e : BiomeType × BiomeProperties) : BiomeType × Option ℚ :=
  let score := biomeScore e.2 temperature rainfall
  match acc.2 with
  | none => (e.1, some score)
  | some best => if score > best then (e.1, some score) else acc

/-- `get_biome_from_climate`. -/
def get_biome_from_climate (temperature rainfall : ℚ) : BiomeType :=
  (BIOME_DEFINITIONS.foldl (biomeStep temperature rainfall)
    (BiomeType.grassland, none)).1

/-! ### src/world/world_generator_advanced.py — data model and world tier -/

inductive TerrainType where
  | grass | water | sand | forest | stone | dirt
deriving DecidableEq, Repr

structure WorldTile where
  x : ℤ
  y : ℤ
  elevation : ℚ
  temperature : ℚ
  rainfall : ℚ
  biome : BiomeType
deriving DecidableEq, Repr

structure RegionTile where
  x : ℤ
  y : ℤ
  elevation : ℚ
  moisture : ℚ
  biome : BiomeType
  terrain_type : TerrainType
deriving DecidableEq, Repr

/-- `_generate_elevation` (the `width`/`height` parameters are unused in the
source as well; the commented-out island shaping never runs). -/
def generate_elevation (noiseE : ℚ → ℚ → ℚ) (x y : ℕ) (_width _height : ℕ) : ℚ :=
  let elevation :=
    noiseE ((x : ℚ) * 0.02) ((y : ℚ) * 0.02) * 0.5 +
    noiseE ((x : ℚ) * 0.04) ((y : ℚ) * 0.04) * 0.25 +
    noiseE ((x : ℚ) * 0.08) ((y : ℚ) * 0.08) * 0.15 +
    noiseE ((x : ℚ) * 0.16) ((y : ℚ) * 0.16) * 0.1
  clamp01 ((elevation + 1) / 2)

/-- `_generate_rainfall`. -/
def generate_rainfall (noiseR : ℚ → ℚ → ℚ) (x y : ℕ) (elevation : ℚ) : ℚ :=
  let rainfall :=
    noiseR ((x : ℚ) * 0.03) ((y : ℚ) * 0.03) * 0.6 +
    noiseR ((x : ℚ) * 0.06) ((y : ℚ) * 0.06) * 0.4
  let rainfall := (rainfall + 1) / 2
  let rainfall := if elevation > 0.7 then rainfall * 1.2 else rainfall
  clamp01 rainfall

/-- The body of the per-cell loop of `generate_world_map`.  `noiseE`,
`noiseT`, `noiseR` stand for the seeded `OpenSimplex` channels
`elevation_noise`, `temperature_noise`, `rainfall_noise` (pure functions of
the seed and the sample point). -/
def world_cell (noiseE noiseT noiseR : ℚ → ℚ → ℚ) (width height : ℕ)
    (x y : ℕ) : WorldTile :=
  let elevation := generate_elevation noiseE x y width height
  let latitude_factor := |((y : ℚ) / (height : ℚ)) - 0.5| * 2
  let base_temp := 1 - latitude_factor
  let temp_noise := noiseT ((x : ℚ) * 0.02) ((y : ℚ) * 0.02)
  let temperature := (base_temp * 0.7 + temp_noise * 0.3) * 2 - 1
  let temperature := temperature - elevation * 0.5
  let rainfall := generate_rainfall noiseR x y elevation
  { x := (x : ℤ), y := (y : ℤ), elevation := elevation,
    temperature := temperature, rainfall := rainfall,
    biome := get_biome_from_climate temperature rainfall }

/-- `generate_world_map` (row-major nested loops become nested maps over
`range`). -/
def generate_world_map (noiseE noiseT noiseR : ℚ → ℚ → ℚ)
    (width height : ℕ) : List (List WorldTile) :=
  (List.range height).map (fun y =>
    (List.range width).map (fun x =>
      world_cell noiseE noiseT noiseR width height x y))

/-! ### src/world/world_generator_advanced.py — local tier

The local map is a mutable 2D array of `Tile` objects from
src/world/terrain.py.  We embed a tile by its fields read in the verified
code (`x`, `y`, `terrain_type`, `resource`); the rendering-only fields
(`building`, `decorations`, `variation`, `micro_variation`) are omitted.
The mutable array is embedded as a total function from coordinates, updated
by pointwise override; only in-bounds cells are ever read back. -/

structure LTile where
  x : ℤ
  y : ℤ
  terrain_type : TerrainType
  resource : Option Resource := none
deriving DecidableEq, Repr

/-- `Tile(x, y, terrain_type)` from src/world/terrain.py. -/
def mkLTile (x y : ℤ) (t : TerrainType) : LTile :=
  { x := x, y := y, terrain_type := t }

def LGrid : Type := ℤ → ℤ → LTile

/-- `tiles[y][x].terrain_type = t`. -/
def setTerrain (g : LGrid) (x y : ℤ) (t : TerrainType) : LGrid :=
  fun a b => if a = x ∧ b = y then { g a b with terrain_type := t } else g a b

/-- `tiles[y][x].resource = r`. -/
def setResource (g : LGrid) (x y : ℤ) (r : Option Resource) : LGrid :=
  fun a b => if a = x ∧ b = y then { g a b with resource := r } else g a b

/-- `_get_terrain_from_biome`; consumes one `random.random()` draw exactly
when the moisture branch is reached (Python `and` short-circuits). -/
def get_terrain_from_biome (props : BiomeProperties) (elevation moisture : ℚ)
    (r : Rng) : TerrainType × Rng :=
  if elevation < 0.25 then (TerrainType.water, r)
  else if elevation < 0.30 then (TerrainType.sand, r)
  else if elevation > 0.75 then (TerrainType.stone, r)
  else if elevation > 0.65 then (TerrainType.dirt, r)
  else if moisture > 0.6 then
    let d := r.random
    if d.1 < props.tree_density then (TerrainType.forest, d.2)
    else (TerrainType.grass, d.2)
  else (TerrainType.grass, r)

/-- `_generate_local_elevation`. -/
def generate_local_elevation (noiseD : ℚ → ℚ → ℚ) (x y : ℕ) (offset_x offset_y : ℤ)
    (avg_elevation : ℚ) : ℚ :=
  let noise :=
    noiseD (((x : ℚ) + (offset_x : ℚ)) * 0.15) (((y : ℚ) + (offset_y : ℚ)) * 0.15) * 0.5 +
    noiseD (((x : ℚ) + (offset_x : ℚ)) * 0.3) (((y : ℚ) + (offset_y : ℚ)) * 0.3) * 0.3 +
    noiseD (((x : ℚ) + (offset_x : ℚ)) * 0.6) (((y : ℚ) + (offset_y : ℚ)) * 0.6) * 0.2
  let noise := (noise + 1) / 2
  clamp01 (avg_elevation * 0.5 + noise * 0.5)

/-- `_generate_local_moisture` (the source applies no clamp here). -/
def generate_local_moisture (noiseR : ℚ → ℚ → ℚ) (x y : ℕ) (offset_x offset_y : ℤ)
    (avg_moisture : ℚ) : ℚ :=
  let noise := noiseR (((x : ℚ) + (offset_x : ℚ)) * 0.2) (((y : ℚ) + (offset_y : ℚ)) * 0.2)
  let noise := (noise + 1) / 2
  avg_moisture * 0.4 + noise * 0.6

/-- The nested per-cell generation loops of `generate_local_map` (before the
post-processing passes). -/
def generate_local_cells (noiseD noiseR : ℚ → ℚ → ℚ) (props : BiomeProperties)
    (offset_x offset_y : ℤ) (avg_elevation avg_moisture : ℚ)
    (width height : ℕ) (r : Rng) : LGrid × Rng :=
  (List.range height).foldl (fun st y =>
    (List.range width).foldl (fun st x =>
      let elevation := generate_local_elevation noiseD x y offset_x offset_y avg_elevation
      let moisture := generate_local_moisture noiseR x y offset_x offset_y avg_moisture
      let tr := get_terrain_from_biome props elevation moisture st.2
      (fun a b => if a = (x : ℤ) ∧ b = (y : ℤ) then mkLTile x y tr.1 else st.1 a b, tr.2))
      st)
    ((fun a b => mkLTile a b TerrainType.grass), r)

/-- One of the four border loops of `_ensure_local_playability`: the loops
share this shape, differing only in the edge cell addressed by the loop
index, given here by `pos`. -/
def fixEdgeWater (g : LGrid) (n : ℕ) (pos : ℤ → ℤ × ℤ) : LGrid :=
  (pyRange 0 n).foldl (fun g i =>
    if (g (pos i).1 (pos i).2).terrain_type = TerrainType.water
    then setTerrain g (pos i).1 (pos i).2 TerrainType.grass else g) g

/-- The body of the 11×11 center-block loop of `_ensure_local_playability`. -/
def centerStep (width height : ℕ) (center_x center_y : ℤ) (g : LGrid)
    (dy dx : ℤ) : LGrid :=
  let x := center_x + dx
  let y := center_y + dy
  if 0 ≤ x ∧ x < (width : ℤ) ∧ 0 ≤ y ∧ y < (height : ℤ) then
    if (g x y).terrain_type ≠ TerrainType.grass ∧
       (g x y).terrain_type ≠ TerrainType.dirt
    then setTerrain g x y TerrainType.grass else g
  else g

/-- The 11×11 center-block loop of `_ensure_local_playability`. -/
def centerFix (g : LGrid) (width height : ℕ) : LGrid :=
  (pyRange (-5) 6).foldl (fun g dy =>
    (pyRange (-5) 6).foldl (fun g dx =>
      centerStep width height ((width / 2 : ℕ) : ℤ) ((height / 2 : ℕ) : ℤ)
        g dy dx) g) g

/-- `_ensure_local_playability`: the four border loops followed by the
11×11 center-block loop. -/
def ensure_local_playability (g : LGrid) (width height : ℕ) : LGrid :=
  let g1 := fixEdgeWater g width (fun x => (x, 0))
  let g2 := fixEdgeWater g1 width (fun x => (x, (height : ℤ) - 1))
  let g3 := fixEdgeWater g2 height (fun y => (0, y))
  let g4 := fixEdgeWater g3 height (fun y => ((width : ℤ) - 1, y))
  centerFix g4 width height

/-- Innermost cell step of the forest-splotch loops in `_add_forests`.  The
source compares `sqrt(dx*dx + dy*dy) <= radius`; with both sides
nonnegative this is exactly `dx*dx + dy*dy ≤ radius*radius`. -/
def forestCellStep (width height : ℕ) (center_x center_y radius dy : ℤ)
    (st : LGrid × Rng) (dx : ℤ) : LGrid × Rng :=
  let nx := center_x + dx
  let ny := center_y + dy
  if 0 ≤ nx ∧ nx < (width : ℤ) ∧ 0 ≤ ny ∧ ny < (height : ℤ) then
    if dx * dx + dy * dy ≤ radius * radius then
      let d := st.2.random
      if d.1 > 0.3 then
        if (st.1 nx ny).terrain_type = TerrainType.grass then
          (setTerrain st.1 nx ny TerrainType.forest, d.2)
        else (st.1, d.2)
      else (st.1, d.2)
    else st
  else st

/-- One iteration of the `for _ in range(num_forests)` loop of `_add_forests`. -/
def forestIter (width height : ℕ) (tree_density : ℚ) (st : LGrid × Rng)
    (_i : ℕ) : LGrid × Rng :=
  let c1 := st.2.randint 0 ((width : ℤ) - 1)
  let c2 := c1.2.randint 0 ((height : ℤ) - 1)
  if (st.1 c1.1 c2.1).terrain_type = TerrainType.grass then
    let rad := c2.2.randint 3 (max 3 (pyInt (8 * tree_density)))
    (pyRange (-rad.1) (rad.1 + 1)).foldl (fun st dy =>
      (pyRange (-rad.1) (rad.1 + 1)).foldl
        (forestCellStep width height c1.1 c2.1 rad.1 dy) st)
      (st.1, rad.2)
  else (st.1, c2.2)

/-- `_add_forests`. -/
def add_forests (g : LGrid) (tree_density : ℚ) (width height : ℕ) (r : Rng) :
    LGrid × Rng :=
  if tree_density < 0.05 then (g, r)
  else
    (List.range (pyInt (20 * tree_density)).toNat).foldl
      (forestIter width height tree_density) (g, r)

/-- `_smooth_terrain`: a snapshot of the terrain is taken first, then every
interior single-tile pond (Water with four non-Water orthogonal neighbours)
becomes Grass. -/
def smooth_terrain (g : LGrid) (width height : ℕ) : LGrid :=
  let original := fun (x y : ℤ) => (g x y).terrain_type
  (pyRange 1 ((height : ℤ) - 1)).foldl (fun g2 y =>
    (pyRange 1 ((width : ℤ) - 1)).foldl (fun g3 x =>
      if original x y = TerrainType.water ∧
         original x (y - 1) ≠ TerrainType.water ∧
         original x (y + 1) ≠ TerrainType.water ∧
         original (x - 1) y ≠ TerrainType.water ∧
         original (x + 1) y ≠ TerrainType.water
      then setTerrain g3 x y TerrainType.grass else g3) g2) g

/-- `_place_resource_nodes`. -/
def place_resource_nodes (g : LGrid) (width height : ℕ) (r : Rng) : LGrid × Rng :=
  (List.range height).foldl (fun st y =>
    (List.range width).foldl (fun st x =>
      let t := (st.1 (x : ℤ) (y : ℤ)).terrain_type
      if t = TerrainType.forest then
        (setResource st.1 x y (some (mkResource ResourceType.tree x y)), st.2)
      else if t = TerrainType.grass ∨ t = TerrainType.dirt then
        let d := st.2.random
        if d.1 < 0.03 then
          (setResource st.1 x y (some (mkResource ResourceType.stone x y)), d.2)
        else if d.1 < 0.08 then
          (setResource st.1 x y (some (mkResource ResourceType.berry_bush x y)), d.2)
        else (st.1, d.2)
      else st) st) (g, r)

/-- `_generate_fallback_map`. -/
def generate_fallback_map (width height : ℕ) : List (List LTile) :=
  (List.range height).map (fun (y : ℕ) =>
    (List.range width).map (fun (x : ℕ) => mkLTile x y TerrainType.grass))

/-- Materialize the functional grid into the row-major list of lists the
source returns. -/
def materializeGrid (g : LGrid) (width height : ℕ) : List (List LTile) :=
  (List.range height).map (fun (y : ℕ) =>
    (List.range width).map (fun (x : ℕ) => g (x : ℤ) (y : ℤ)))

/-- First-occurrence deduplication, used to model iterating over
`set(t.biome for t in chunk_tiles)`.  CPython set iteration order is
unspecified; we fix first-occurrence order.  The claims proved below hold
for every choice, so nothing depends on this modelling decision. -/
def dedupBiomes : List BiomeType → List BiomeType
  | [] => []
  | b :: rest => b :: (dedupBiomes rest).filter (fun c => c ≠ b)

/-- `max(set(...), key=count)`: Python max keeps the earliest element on
ties (strict improvement replaces).  The empty case cannot arise in the
source (guarded by the fallback branch); we return grassland there. -/
def primaryBiome (chunk_tiles : List RegionTile) : BiomeType :=
  match dedupBiomes (chunk_tiles.map (fun t => t.biome)) with
  | [] => BiomeType.grassland
  | c :: rest =>
      rest.foldl (fun best cand =>
        if ((chunk_tiles.filter (fun t => t.biome = cand)).length : ℤ) >
           ((chunk_tiles.filter (fun t => t.biome = best)).length : ℤ)
        then cand else best) c

/-- The chunk extraction loop of `generate_local_map` (indices clamped to
the region edge, out-of-range results dropped). -/
def chunkTiles (region_tiles : List (List RegionTile)) (chunk_x chunk_y : ℤ)
    (chunk_width chunk_height : ℕ) : List RegionTile :=
  let region_height := region_tiles.length
  let region_width := (region_tiles.headD []).length
  (List.range chunk_height).flatMap (fun cy =>
    (List.range chunk_width).filterMap (fun cx =>
      let rx := min (chunk_x + (cx : ℤ)) ((region_width : ℤ) - 1)
      let ry := min (chunk_y + (cy : ℤ)) ((region_height : ℤ) - 1)
      if 0 ≤ ry ∧ ry < (region_height : ℤ) ∧ 0 ≤ rx ∧ rx < (region_width : ℤ) then
        some (((region_tiles.getD ry.toNat []).getD rx.toNat
          { x := 0, y := 0, elevation := 0, moisture := 0,
            biome := BiomeType.grassland, terrain_type := TerrainType.grass }))
      else none))

/-- `generate_local_map`.  `noiseD`/`noiseR` abstract the seeded
`detail_noise`/`rainfall_noise` OpenSimplex channels; `rng` models the
global `random` stream at entry. -/
def generate_local_map (region_tiles : List (List RegionTile))
    (chunk_x chunk_y : ℤ) (chunk_width chunk_height : ℕ)
    (local_width local_height : ℕ)
    (noiseD noiseR : ℚ → ℚ → ℚ) (rng : Rng) : List (List LTile) :=
  let chunk := chunkTiles region_tiles chunk_x chunk_y chunk_width chunk_height
  if chunk.isEmpty then generate_fallback_map local_width local_height
  else
    let avg_elevation := (chunk.map (fun t => t.elevation)).sum / (chunk.length : ℚ)
    let avg_moisture := (chunk.map (fun t => t.moisture)).sum / (chunk.length : ℚ)
    let biome_props := get_biome_properties (primaryBiome chunk)
    let offset_x := chunk_x * 1000
    let offset_y := chunk_y * 1000
    let st1 := generate_local_cells noiseD noiseR biome_props offset_x offset_y
      avg_elevation avg_moisture local_width local_height rng
    let g2 := ensure_local_playability st1.1 local_width local_height
    let st3 := add_forests g2 biome_props.tree_density local_width local_height st1.2
    let g4 := smooth_terrain st3.1 local_width local_height
    let st5 := place_resource_nodes g4 local_width local_height st3.2
    materializeGrid st5.1 local_width local_height

/-- Terrain of the tile at column `x`, row `y` of a materialized map. -/
def terrainAt (tiles : List (List LTile)) (x y : ℕ) : TerrainType :=
  ((tiles.getD y []).getD x (mkLTile 0 0 TerrainType.grass)).terrain_type

/-! ### src/entities/building.py -/

inductive BuildingType where
  | house | storage | warehouse | workshop | farm
  | mine | lumber_camp | well | market | wagon
deriving DecidableEq, Repr

inductive BuildingState where
  | planned | under_construction | complete
deriving DecidableEq, Repr

/-- `BuildingDefinition` (the visual `color` and `description` fields are
omitted; no verified code path reads them). -/
structure BuildingDefinition where
  building_type : BuildingType
  name : String
  width : ℤ
  height : ℤ
  required_resources : List (String × ℤ)
  construction_work : ℚ
  max_workers : ℤ
deriving DecidableEq, Repr

/-- `BUILDING_DEFINITIONS` (dict keyed by building type). -/
def BUILDING_DEFINITIONS : BuildingType → BuildingDefinition
  | BuildingType.house =>
      { building_type := BuildingType.house, name := ("House"), width := 3, height := 3,
        required_resources := [(("wood"), 20), (("stone"), 10)],
        construction_work := 100, max_workers := 0 }
  | BuildingType.storage =>
      { building_type := BuildingType.storage, name := ("Storage"), width := 4, height := 4,
        required_resources := [(("wood"), 30)],
        construction_work := 80, max_workers := 0 }
  | BuildingType.warehouse =>
      { building_type := BuildingType.warehouse, name := ("Warehouse"), width := 5, height := 5,
        required_resources := [(("wood"), 50), (("stone"), 30)],
        construction_work := 150, max_workers := 0 }
  | BuildingType.workshop =>
      { building_type := BuildingType.workshop, name := ("Workshop"), width := 3, height := 3,
        required_resources := [(("wood"), 25), (("stone"), 15)],
        construction_work := 120, max_workers := 4 }
  | BuildingType.farm =>
      { building_type := BuildingType.farm, name := ("Farm"), width := 5, height := 5,
        required_resources := [(("wood"), 10)],
        construction_work := 60, max_workers := 3 }
  | BuildingType.mine =>
      { building_type := BuildingType.mine, name := ("Mine"), width := 2, height := 2,
        required_resources := [(("wood"), 15), (("stone"), 5)],
        construction_work := 150, max_workers := 5 }
  | BuildingType.lumber_camp =>
      { building_type := BuildingType.lumber_camp, name := ("Lumber Camp"), width := 3, height := 2,
        required_resources := [(("wood"), 15)],
        construction_work := 70, max_workers := 4 }
  | BuildingType.well =>
      { building_type := BuildingType.well, name := ("Well"), width := 1, height := 1,
        required_resources := [(("stone"), 20)],
        construction_work := 100, max_workers := 0 }
  | BuildingType.market =>
      { building_type := BuildingType.market, name := ("Market"), width := 4, height := 3,
        required_resources := [(("wood"), 40), (("stone"), 20)],
        construction_work := 140, max_workers := 6 }
  | BuildingType.wagon =>
      { building_type := BuildingType.wagon, name := ("Wagon Stockpile"), width := 2, height := 2,
        required_resources := [],
        construction_work := 0, max_workers := 0 }

structure Building where
  id : ℤ
  building_type : BuildingType
  x : ℤ
  y : ℤ
  state : BuildingState := BuildingState.planned
  construction_progress : ℚ := 0
  materials_delivered : List (String × ℤ) := []
  assigned_workers : List ℤ := []
  auto_employ : Bool := true
  is_active : Bool := false
  production_progress : ℚ := 0
deriving DecidableEq, Repr

/-- `Building.get_definition`. -/
def Building.get_definition (b : Building) : BuildingDefinition :=
  BUILDING_DEFINITIONS b.building_type

/-- `Building.get_required_materials`: the `needed` dict built by iterating
the required resources of the definition. -/
def Building.get_required_materials (b : Building) : List (String × ℤ) :=
  b.get_definition.required_resources.foldl (fun needed kv =>
    let delivered := dictGet b.materials_delivered kv.1 0
    if delivered < kv.2 then dictSet needed kv.1 (kv.2 - delivered) else needed) []

/-- `Building.has_all_materials` (`len(needed) == 0`). -/
def Building.has_all_materials (b : Building) : Bool :=
  b.get_required_materials.length = 0

/-- `Building.deliver_material`. -/
def Building.deliver_material (b : Building) (resource_type : String) (amount : ℤ) :
    Building :=
  let current := dictGet b.materials_delivered resource_type 0
  { b with materials_delivered :=
      dictSet b.materials_delivered resource_type (current + amount) }

/-- `Building.can_start_construction`. -/
def Building.can_start_construction (b : Building) : Bool :=
  b.state = BuildingState.planned ∧ b.has_all_materials

/-- `Building.add_construction_progress`. -/
def Building.add_construction_progress (b : Building) (amount : ℚ) : Building :=
  if b.state = BuildingState.under_construction then
    let b := { b with construction_progress := b.construction_progress + amount }
    if b.construction_progress ≥ b.get_definition.construction_work then
      { b with state := BuildingState.complete,
               construction_progress := b.get_definition.construction_work,
               is_active := true }
    else b
  else b

/-- `Building.occupies_tile`. -/
def Building.occupies_tile (b : Building) (tile_x tile_y : ℤ) : Bool :=
  b.x ≤ tile_x ∧ tile_x < b.x + b.get_definition.width ∧
  b.y ≤ tile_y ∧ tile_y < b.y + b.get_definition.height

/-- `Building.get_center`. -/
def Building.get_center (b : Building) : ℚ × ℚ :=
  ((b.x : ℚ) + (b.get_definition.width : ℚ) / 2,
   (b.y : ℚ) + (b.get_definition.height : ℚ) / 2)

/-! ### src/entities/citizen.py -/

inductive JobType where
  | idle | construction | gathering | hauling | farming | crafting
deriving DecidableEq, Repr

inductive CitizenState where
  | idle | walking | working | carrying
deriving DecidableEq, Repr

/-- `Citizen`.  The skill fields are initialized by `random.randint(0, 10)`
in the source; here they are explicit state, so theorems quantify over all
initializations.  `current_task` is an object reference in Python; the
job-manager step functions below take the referenced Building / Resource as
an explicit argument and return its updated value (single-threaded aliasing
made explicit). -/
structure Citizen where
  id : ℤ
  name : String
  x : ℚ
  y : ℚ
  state : CitizenState := CitizenState.idle
  current_job : Option JobType := none
  target_x : Option ℚ := none
  target_y : Option ℚ := none
  construction_skill : ℤ := 5
  gathering_skill : ℤ := 5
  hauling_skill : ℤ := 5
  can_construct : Bool := true
  can_gather : Bool := true
  can_haul : Bool := true
  carrying_resource : Option String := none
  carrying_amount : ℤ := 0
  move_speed : ℚ := 5
  current_path : Option (List (ℤ × ℤ)) := none
  path_index : ℕ := 0
deriving DecidableEq, Repr

/-- `Citizen.clear_task`. -/
def Citizen.clear_task (c : Citizen) : Citizen :=
  { c with current_job := none, state := CitizenState.idle,
           target_x := none, target_y := none,
           current_path := none, path_index := 0 }

/-- `Citizen.set_target`. -/
def Citizen.set_target (c : Citizen) (x y : ℚ) (path : Option (List (ℤ × ℤ))) :
    Citizen :=
  { c with target_x := some x, target_y := some y,
           state := CitizenState.walking, current_path := path, path_index := 0 }

/-- `Citizen.has_reached_target(threshold)`: `True` when no target is set;
otherwise the source compares `sqrt(d2) < threshold`, which for the
nonnegative threshold used everywhere (0.5) equals `d2 < threshold^2`. -/
def Citizen.has_reached_target (c : Citizen) (threshold : ℚ) : Bool :=
  match c.target_x, c.target_y with
  | some tx, some ty =>
      decide ((c.x - tx) * (c.x - tx) + (c.y - ty) * (c.y - ty) < threshold * threshold)
  | _, _ => true

/-! ### src/systems/pathfinding.py

The A* `Node` dataclass is embedded with its `parent` back-pointer, so
`_reconstruct_path` is structural recursion.  Two aspects of the source are
abstracted as explicit parameters, and every theorem below quantifies over
them:
* `hfun` stands for `_heuristic` (a float Euclidean distance; its exact
  rounding is irrelevant to the properties proved here);
* `pickIdx` stands for the `heapq` pop discipline: the source pops a node
  with minimal float `f_cost` (ties unspecified); we allow any index choice,
  which strictly includes the heap behaviour. -/

inductive PNode where
  | root (f_cost g_cost h_cost : ℚ) (x y : ℤ)
  | child (f_cost g_cost h_cost : ℚ) (x y : ℤ) (parent : PNode)

def PNode.x : PNode → ℤ
  | PNode.root _ _ _ x _ => x
  | PNode.child _ _ _ x _ _ => x

def PNode.y : PNode → ℤ
  | PNode.root _ _ _ _ y => y
  | PNode.child _ _ _ _ y _ => y

def PNode.g_cost : PNode → ℚ
  | PNode.root _ g _ _ _ => g
  | PNode.child _ g _ _ _ _ => g

/-- `_reconstruct_path`, written as the reversal of the chain of positions
from the goal node back to the start (a node with `parent=None` is a
`root`, a node with a parent is a `child`). -/
def PNode.chain : PNode → List (ℤ × ℤ)
  | PNode.root _ _ _ x y => [(x, y)]
  | PNode.child _ _ _ x y p => (x, y) :: PNode.chain p

def reconstruct_path (n : PNode) : List (ℤ × ℤ) :=
  n.chain.reverse

/-- The building obstacle set built at the top of `find_path` (footprint
cells clipped to the map bounds); a list models the Python set, membership
being all that is consumed. -/
def buildingObstacles (buildings : List Building) (width height : ℕ) :
    List (ℤ × ℤ) :=
  buildings.flatMap (fun b =>
    (pyRange b.y (b.y + b.get_definition.height)).flatMap (fun by2 =>
      (pyRange b.x (b.x + b.get_definition.width)).filterMap (fun bx =>
        if 0 ≤ bx ∧ bx < (width : ℤ) ∧ 0 ≤ by2 ∧ by2 < (height : ℤ)
        then some (bx, by2) else none)))

/-- `Pathfinder._is_walkable`. -/
def is_walkable (x y : ℤ) (tiles : List (List LTile))
    (building_obstacles : List (ℤ × ℤ)) : Bool :=
  if (x, y) ∈ building_obstacles then false
  else if (terrainAt tiles x.toNat y.toNat) = TerrainType.water then false
  else true

/-- The eight neighbour directions, in source order. -/
def pathDirs : List (ℤ × ℤ) :=
  [(-1, 0), (1, 0), (0, -1), (0, 1), (-1, -1), (-1, 1), (1, -1), (1, 1)]

/-- Expansion of one popped node: the neighbour nodes pushed onto the open
list (bounds check, closed-set check, walkability check, cost computation). -/
def expandNode (hfun : ℤ → ℤ → ℤ → ℤ → ℚ) (goal_x goal_y : ℤ)
    (width height : ℕ) (tiles : List (List LTile))
    (building_obstacles : List (ℤ × ℤ)) (closed : List (ℤ × ℤ))
    (current : PNode) : List PNode :=
  pathDirs.filterMap (fun d =>
    let nx := current.x + d.1
    let ny := current.y + d.2
    if ¬ (0 ≤ nx ∧ nx < (width : ℤ) ∧ 0 ≤ ny ∧ ny < (height : ℤ)) then none
    else if (nx, ny) ∈ closed then none
    else if ¬ is_walkable nx ny tiles building_obstacles then none
    else
      let move_cost : ℚ := if d.1 ≠ 0 ∧ d.2 ≠ 0 then 1.414 else 1.0
      let g_cost := current.g_cost + move_cost
      let h_cost := hfun nx ny goal_x goal_y
      some (PNode.child (g_cost + h_cost) g_cost h_cost nx ny current))

/-- The `while open_list and iterations < max_iterations` loop, with the
remaining iteration budget as fuel. -/
def astarLoop (hfun : ℤ → ℤ → ℤ → ℤ → ℚ) (pickIdx : List PNode → ℕ)
    (goal_x goal_y : ℤ) (width height : ℕ) (tiles : List (List LTile))
    (building_obstacles : List (ℤ × ℤ)) :
    ℕ → List PNode → List (ℤ × ℤ) → Option (List (ℤ × ℤ))
  | 0, _, _ => none
  | _ + 1, [], _ => none
  | fuel + 1, o :: open_rest, closed =>
      let open_list := o :: open_rest
      let i := pickIdx open_list % open_list.length
      let current := open_list.getD i o
      let remaining := open_list.eraseIdx i
      if current.x = goal_x ∧ current.y = goal_y then
        some (reconstruct_path current)
      else
        let closed2 := (current.x, current.y) :: closed
        let pushed := expandNode hfun goal_x goal_y width height tiles
          building_obstacles closed2 current
        astarLoop hfun pickIdx goal_x goal_y width height tiles
          building_obstacles fuel (remaining ++ pushed) closed2

/-- `Pathfinder.find_path`. -/
def find_path (hfun : ℤ → ℤ → ℤ → ℤ → ℚ) (pickIdx : List PNode → ℕ)
    (start_x start_y goal_x goal_y : ℤ) (tiles : List (List LTile))
    (buildings : List Building) (max_iterations : ℕ) :
    Option (List (ℤ × ℤ)) :=
  if tiles.isEmpty ∨ (tiles.headD []).isEmpty then none
  else
    let height := tiles.length
    let width := (tiles.headD []).length
    if ¬ (0 ≤ start_x ∧ start_x < (width : ℤ) ∧ 0 ≤ start_y ∧ start_y < (height : ℤ)) then
      none
    else if ¬ (0 ≤ goal_x ∧ goal_x < (width : ℤ) ∧ 0 ≤ goal_y ∧ goal_y < (height : ℤ)) then
      none
    else if start_x = goal_x ∧ start_y = goal_y then
      some [(start_x, start_y)]
    else
      let obstacles0 := buildingObstacles buildings width height
      let obstacles := obstacles0.filter (fun p => p ≠ (goal_x, goal_y))
      let h0 := hfun start_x start_y goal_x goal_y
      let start_node := PNode.root (0 + h0) 0 h0 start_x start_y
      astarLoop hfun pickIdx goal_x goal_y width height tiles obstacles
        max_iterations [start_node] []

/-! ### src/core/game_state.py — storage capacity -/

/-- `GameState.get_total_storage_capacity`: `max_storage_capacity = 500`
plus `storage_capacity_per_warehouse = 2000` per COMPLETE warehouse. -/
def get_total_storage_capacity (buildings : List Building) : ℤ :=
  500 + 2000 * ((buildings.filter (fun b =>
    b.building_type = BuildingType.warehouse ∧
    b.state = BuildingState.complete)).length : ℤ)

/-- `GameState.can_add_resources` (`get_storage_remaining() >= amount`,
with `used = sum(self.resources.values())`). -/
def can_add_resources (buildings : List Building) (resources : List (String × ℤ))
    (amount : ℤ) : Bool :=
  get_total_storage_capacity buildings - dictValuesSum resources ≥ amount

/-! ### src/systems/job_manager.py

The per-citizen task updates.  Each function takes the object the citizen
task references (`Building` for hauling/construction, `Resource` for
gathering) as an explicit argument and returns its new value — the Python
code mutates the same object through the alias.  The branch that clears the
task when `current_task` has the wrong runtime type concerns stale
references only and is outside these entry points. -/

/-- `JobManager._get_stockpile_location`. -/
def get_stockpile_location (buildings : List Building) : ℚ × ℚ :=
  match buildings.find? (fun b => b.building_type = BuildingType.wagon) with
  | some b => b.get_center
  | none => (5, 5)

/-- Python truthiness of `citizen.current_path` (`None` and `[]` are falsy). -/
def pathFalsy : Option (List (ℤ × ℤ)) → Bool
  | none => true
  | some [] => true
  | some (_ :: _) => false

/-- `JobManager._move_citizen_to`: recompute the path only when there is no
current path or the target changed, then `set_target`. -/
def move_citizen_to (hfun : ℤ → ℤ → ℤ → ℤ → ℚ) (pickIdx : List PNode → ℕ)
    (c : Citizen) (target_x target_y : ℚ) (tiles : List (List LTile))
    (buildings : List Building) : Citizen :=
  if pathFalsy c.current_path ∨ c.target_x ≠ some target_x ∨
     c.target_y ≠ some target_y then
    let path := find_path hfun pickIdx (pyInt c.x) (pyInt c.y)
      (pyInt target_x) (pyInt target_y) tiles buildings 1000
    c.set_target target_x target_y path
  else c

/-- `JobManager._update_hauling` (the citizen task is the Building `b`). -/
def update_hauling (hfun : ℤ → ℤ → ℤ → ℤ → ℚ) (pickIdx : List PNode → ℕ)
    (c : Citizen) (b : Building) (buildings : List Building)
    (resources : List (String × ℤ)) (_delta_time : ℚ)
    (tiles : List (List LTile)) :
    Citizen × Building × List (String × ℤ) :=
  match c.carrying_resource with
  | none =>
      let sloc := get_stockpile_location buildings
      if ¬ c.has_reached_target 0.5 then
        (move_citizen_to hfun pickIdx c sloc.1 sloc.2 tiles buildings, b, resources)
      else
        let needed := b.get_required_materials
        match needed.find? (fun kv => dictGet resources kv.1 0 > 0) with
        | none => (c, b, resources)
        | some kv =>
            let amount_to_take := min 5 (min (dictGet resources kv.1 0) kv.2)
            ({ c with carrying_resource := some kv.1,
                      carrying_amount := amount_to_take,
                      state := CitizenState.carrying },
             b,
             dictSet resources kv.1 (dictGet resources kv.1 0 - amount_to_take))
  | some carried =>
      let ctr := b.get_center
      if ¬ c.has_reached_target 0.5 then
        (move_citizen_to hfun pickIdx c ctr.1 ctr.2 tiles buildings, b, resources)
      else
        let b2 := b.deliver_material carried c.carrying_amount
        let c2 := { c with carrying_resource := none, carrying_amount := 0 }
        if b2.get_required_materials.isEmpty then (c2.clear_task, b2, resources)
        else (c2, b2, resources)

/-- `JobManager._update_construction` (the citizen task is the Building `b`). -/
def update_construction (c : Citizen) (b : Building) (delta_time : ℚ) :
    Citizen × Building :=
  let b := if b.state = BuildingState.planned ∧ b.has_all_materials
           then { b with state := BuildingState.under_construction } else b
  if b.state = BuildingState.under_construction then
    let ctr := b.get_center
    if ¬ c.has_reached_target 0.5 then
      (c.set_target ctr.1 ctr.2 none, b)
    else
      let c := { c with state := CitizenState.working }
      let skill_multiplier := 1 + (c.construction_skill : ℚ) / 20
      let work_done := 10 * skill_multiplier * delta_time
      let b := b.add_construction_progress work_done
      if b.state = BuildingState.complete then (c.clear_task, b) else (c, b)
  else if b.state = BuildingState.complete then (c.clear_task, b)
  else (c, b)

/-- The not-carrying branch of `_update_gathering` (walk to the node,
accumulate the gather timer, harvest at 5 s). -/
def update_gathering_not_carrying (hfun : ℤ → ℤ → ℤ → ℤ → ℚ)
    (pickIdx : List PNode → ℕ) (c : Citizen) (node : Resource)
    (tiles : List (List LTile)) (resources : List (String × ℤ))
    (delta_time : ℚ) (buildings : List Building)
    (gather_time : List (ℤ × ℚ)) :
    Citizen × Resource × List (String × ℤ) × List (ℤ × ℚ) :=
  let c := move_citizen_to hfun pickIdx c (node.x : ℚ) (node.y : ℚ) tiles buildings
  if c.has_reached_target 0.5 then
    let c := { c with state := CitizenState.working }
    let gather_time :=
      if ¬ dictMem gather_time c.id then dictSet gather_time c.id 0
      else gather_time
    let accumulated := dictGet gather_time c.id 0 + delta_time
    let gather_time := dictSet gather_time c.id accumulated
    if accumulated ≥ 5 then
      let gr := node.gather
      let node := gr.2.unassign_citizen
      let gather_time := dictRemove gather_time c.id
      match gr.1.1 with
      | some rt =>
          if gr.1.2 > 0 then
            ({ c with carrying_resource := some rt,
                      carrying_amount := gr.1.2,
                      state := CitizenState.carrying,
                      target_x := none, target_y := none },
             node, resources, gather_time)
          else (c.clear_task, node, resources, gather_time)
      | none => (c.clear_task, node, resources, gather_time)
    else (c, node, resources, gather_time)
  else (c, node, resources, gather_time)

/-- The carrying branch of `_update_gathering` (walk to the stockpile,
deposit if the capacity check allows, otherwise drop the cargo). -/
def update_gathering_carrying (hfun : ℤ → ℤ → ℤ → ℤ → ℚ)
    (pickIdx : List PNode → ℕ) (c : Citizen) (carried : String)
    (node : Resource) (tiles : List (List LTile))
    (resources : List (String × ℤ)) (buildings : List Building)
    (gather_time : List (ℤ × ℚ)) (storage_check : Option (ℤ → Bool)) :
    Citizen × Resource × List (String × ℤ) × List (ℤ × ℚ) :=
  let sloc := get_stockpile_location buildings
  let c := move_citizen_to hfun pickIdx c sloc.1 sloc.2 tiles buildings
  if c.has_reached_target 0.5 then
    let can_deposit := match storage_check with
      | none => true
      | some f => f c.carrying_amount
    if can_deposit then
      let resources := dictSet resources carried
        (dictGet resources carried 0 + c.carrying_amount)
      let c := { c with carrying_resource := none, carrying_amount := 0 }
      (c.clear_task, node, resources, gather_time)
    else
      let c := { c with carrying_resource := none, carrying_amount := 0 }
      (c.clear_task, node, resources, gather_time)
  else (c, node, resources, gather_time)

/-- `JobManager._update_gathering` (the citizen task is the Resource
`node`).  `gather_time` is the external `citizen_gather_time` dict;
`storage_check` is the `storage_capacity_check` callable (`none` models the
default `None`, under which `can_deposit` stays `True`). -/
def update_gathering (hfun : ℤ → ℤ → ℤ → ℤ → ℚ) (pickIdx : List PNode → ℕ)
    (c : Citizen) (node : Resource) (tiles : List (List LTile))
    (resources : List (String × ℤ)) (delta_time : ℚ)
    (buildings : List Building) (gather_time : List (ℤ × ℚ))
    (storage_check : Option (ℤ → Bool)) :
    Citizen × Resource × List (String × ℤ) × List (ℤ × ℚ) :=
  match c.carrying_resource with
  | none =>
      update_gathering_not_carrying hfun pickIdx c node tiles resources
        delta_time buildings gather_time
  | some carried =>
      update_gathering_carrying hfun pickIdx c carried node tiles resources
        buildings gather_time storage_check

/-- `_update_gathering` as invoked by `GameState.update`, which passes
`storage_capacity_check=self.can_add_resources`; the check reads the same
stockpile dict that the step receives (nothing mutates it before the
check runs). -/
def game_update_gathering (hfun : ℤ → ℤ → ℤ → ℤ → ℚ) (pickIdx : List PNode → ℕ)
    (c : Citizen) (node : Resource) (tiles : List (List LTile))
    (resources : List (String × ℤ)) (delta_time : ℚ)
    (buildings : List Building) (gather_time : List (ℤ × ℚ)) :
    Citizen × Resource × List (String × ℤ) × List (ℤ × ℚ) :=
  update_gathering hfun pickIdx c node tiles resources delta_time buildings
    gather_time (some (can_add_resources buildings resources))

/-! ## Shared helper lemmas -/

theorem dictGet_dictSet_self {α β : Type} [DecidableEq α]
    (d : List (α × β)) (k : α) (v : β) (dflt : β) :
    dictGet (dictSet d k v) k dflt = v := by
  induction d with
  | nil => simp [dictGet, dictSet]
  | cons kv rest ih =>
      by_cases h : kv.1 = k
      · simp [dictGet, dictSet, h]
      · simpa [dictGet, dictSet, h] using ih

theorem dictGet_dictSet_other {α β : Type} [DecidableEq α]
    (d : List (α × β)) (k k2 : α) (v : β) (dflt : β) (hne : k2 ≠ k) :
    dictGet (dictSet d k v) k2 dflt = dictGet d k2 dflt := by
  have hkk2 : ¬ (k = k2) := fun h => hne h.symm
  induction d with
  | nil => simp [dictGet, dictSet, hkk2]
  | cons kv rest ih =>
      obtain ⟨a, b⟩ := kv
      by_cases h : a = k
      · subst h
        simp [dictGet, dictSet, hkk2]
      · by_cases h2 : a = k2 <;> simp [dictGet, dictSet, h, h2, hne, ih]

theorem dictValuesSum_dictSet (d : List (String × ℤ)) (k : String) (v : ℤ) :
    dictValuesSum (dictSet d k v) = dictValuesSum d - dictGet d k 0 + v := by
  induction d with
  | nil => simp [dictValuesSum, dictGet, dictSet]
  | cons kv rest ih =>
      by_cases h : kv.1 = k
      · simp only [dictValuesSum, dictGet, dictSet, h, if_true, List.map_cons,
          List.sum_cons]
        ring
      · simp only [dictValuesSum, dictGet, dictSet, h, if_false, List.map_cons,
          List.sum_cons] at ih ⊢
        omega

theorem foldl_preserve {α β : Type} {P : β → Prop} {f : β → α → β}
    (h : ∀ b a, P b → P (f b a)) :
    ∀ (l : List α) (b : β), P b → P (l.foldl f b) := by
  intro l
  induction l with
  | nil => intro b hb; simpa using hb
  | cons a rest ih => intro b hb; exact ih (f b a) (h b a hb)

theorem foldl_establish {α β : Type} (f : β → α → β) (Q : β → α → Prop)
    (hstep : ∀ b a, Q (f b a) a)
    (hpres : ∀ b a c, Q b c → Q (f b a) c) :
    ∀ (l : List α) (b : β) (a : α), a ∈ l → Q (l.foldl f b) a := by
  intro l
  induction l with
  | nil => intro b a ha; cases ha
  | cons a0 rest ih =>
      intro b a ha
      rcases List.mem_cons.mp ha with h | h
      · subst h
        exact foldl_preserve (fun b a2 hb => hpres b a2 a hb) rest (f b a) (hstep b a)
      · exact ih (f b a0) a h

theorem getD_map_range {α : Type} (f : ℕ → α) (n i : ℕ) (h : i < n) (d : α) :
    (((List.range n).map f).getD i d) = f i := by
  rw [List.getD_eq_getElem?_getD, List.getElem?_map, List.getElem?_range h]
  rfl

/-! ## C9 — fresh Tree node scenario -/

/-- C9: a freshly constructed Tree resource has `amount_remaining = 4` and
`provides_amount = 4`; one `gather()` call returns `("wood", 4)` and leaves
`is_depleted = True`, `amount_remaining = 0`. -/
theorem c9_tree_scenario :
    (mkResource ResourceType.tree 0 0).amount_remaining = 4 ∧
    (mkResource ResourceType.tree 0 0).provides_amount = 4 ∧
    (mkResource ResourceType.tree 0 0).gather.1 = (some ("wood"), 4) ∧
    (mkResource ResourceType.tree 0 0).gather.2.is_depleted = true ∧
    (mkResource ResourceType.tree 0 0).gather.2.amount_remaining = 0 := by
  decide

/-! ## C5 — resource monotonicity and permanent depletion -/

theorem gather_provides_amount (r : Resource) :
    r.gather.2.provides_amount = r.provides_amount := by
  unfold Resource.gather
  split
  · rfl
  · dsimp only
    split
    · rfl
    · rfl

theorem gatherIter_provides_amount (r : Resource) (n : ℕ) :
    (gatherIter r n).provides_amount = r.provides_amount := by
  induction n with
  | zero => rfl
  | succ n ih => rw [gatherIter, gather_provides_amount, ih]

theorem gather_state_spec (s : Resource) (hp : 0 ≤ s.provides_amount) :
    (s.gather.2.amount_remaining ≤ s.amount_remaining) ∧
    (s.amount_remaining ≤ 0 →
      s.gather.2.is_depleted = true ∧ s.gather.1 = (none, 0)) ∧
    (s.is_depleted = true →
      s.gather.2.is_depleted = true ∧ s.gather.1 = (none, 0)) := by
  refine ⟨?_, ?_, ?_⟩
  · unfold Resource.gather
    by_cases h1 : (s.is_depleted : Prop) ∨ s.amount_remaining ≤ 0
    · rw [if_pos h1]
    · rw [if_neg h1]
      dsimp only
      split
      · dsimp only
        omega
      · dsimp only
        omega
  · intro hle
    unfold Resource.gather
    rw [if_pos (Or.inr hle)]
    exact ⟨rfl, rfl⟩
  · intro hd
    unfold Resource.gather
    rw [if_pos (Or.inl (by simp [hd]))]
    exact ⟨rfl, rfl⟩

/-- C5: `gather()` never increases `amount_remaining`; from any state with
`amount_remaining ≤ 0` (or already flagged depleted) the next `gather()`
leaves the node depleted and returns `(None, 0)` — and since the amount
never increases, once nonpositive it stays nonpositive, so this holds at
every later call as well.  The hypothesis `0 ≤ provides_amount` holds for
every node the game constructs (`__post_init__` sets 4, 8, 5 or 5). -/
theorem c5_resource_monotonicity (r : Resource) (n : ℕ)
    (hp : 0 ≤ r.provides_amount) :
    ((gatherIter r n).gather.2.amount_remaining ≤ (gatherIter r n).amount_remaining) ∧
    ((gatherIter r n).amount_remaining ≤ 0 →
      (gatherIter r n).gather.2.is_depleted = true ∧
      (gatherIter r n).gather.1 = (none, 0)) ∧
    ((gatherIter r n).is_depleted = true →
      (gatherIter r n).gather.2.is_depleted = true ∧
      (gatherIter r n).gather.1 = (none, 0)) := by
  have hp2 : 0 ≤ (gatherIter r n).provides_amount := by
    rw [gatherIter_provides_amount]; exact hp
  exact gather_state_spec (gatherIter r n) hp2

/-- Witness for C5 at a concrete input: a fresh Tree node, one prior
`gather()` call. -/
theorem c5_witness :
    (0 ≤ (mkResource ResourceType.tree 0 0).provides_amount) ∧
    ((gatherIter (mkResource ResourceType.tree 0 0) 1).gather.2.amount_remaining ≤
      (gatherIter (mkResource ResourceType.tree 0 0) 1).amount_remaining) ∧
    ((gatherIter (mkResource ResourceType.tree 0 0) 1).gather.1 = (none, 0)) := by
  refine ⟨by decide, ?_, ?_⟩
  · exact (c5_resource_monotonicity (mkResource ResourceType.tree 0 0) 1 (by decide)).1
  · exact ((c5_resource_monotonicity (mkResource ResourceType.tree 0 0) 1
      (by decide)).2.1 (by decide)).2

/-! ## C10 — deliver_material is unbounded; the material queries only read
the required kinds -/

theorem required_fold_congr (reqs : List (String × ℤ)) (m1 m2 : List (String × ℤ))
    (h : ∀ kv ∈ reqs, dictGet m1 kv.1 0 = dictGet m2 kv.1 0) :
    ∀ acc : List (String × ℤ),
      reqs.foldl (fun needed kv =>
        let delivered := dictGet m1 kv.1 0
        if delivered < kv.2 then dictSet needed kv.1 (kv.2 - delivered) else needed) acc =
      reqs.foldl (fun needed kv =>
        let delivered := dictGet m2 kv.1 0
        if delivered < kv.2 then dictSet needed kv.1 (kv.2 - delivered) else needed) acc := by
  induction reqs with
  | nil => intro acc; rfl
  | cons a rest ih =>
      intro acc
      have ha := h a (by simp)
      simp only [List.foldl_cons]
      simp only [ha]
      exact ih (fun kv hkv => h kv (List.mem_cons_of_mem _ hkv)) _

/-- An undelivered planned House used as a concrete exhibit. -/
def exampleHouse : Building :=
  { id := 1, building_type := BuildingType.house, x := 0, y := 0 }

/-- C10: `deliver_material` adds unconditionally (no cap, any resource
kind), so `materials_delivered` may exceed the required amount and may hold
kinds the building does not require; `get_required_materials` and
`has_all_materials` are functions of the delivered amounts of the required
kinds only, so they ignore such excess. -/
theorem c10_deliver_unbounded :
    (∀ (b : Building) (rt : String) (amount : ℤ),
      dictGet (b.deliver_material rt amount).materials_delivered rt 0 =
        dictGet b.materials_delivered rt 0 + amount) ∧
    (∀ (b : Building) (rt rt2 : String) (amount : ℤ), rt2 ≠ rt →
      dictGet (b.deliver_material rt amount).materials_delivered rt2 0 =
        dictGet b.materials_delivered rt2 0) ∧
    (∀ b b2 : Building, b.building_type = b2.building_type →
      (∀ kv ∈ (BUILDING_DEFINITIONS b.building_type).required_resources,
        dictGet b.materials_delivered kv.1 0 = dictGet b2.materials_delivered kv.1 0) →
      b.get_required_materials = b2.get_required_materials ∧
        b.has_all_materials = b2.has_all_materials) ∧
    (dictGet ((exampleHouse.deliver_material ("iron") 7).deliver_material
        ("wood") 25).materials_delivered ("wood") 0 = 25 ∧
      dictGet ((exampleHouse.deliver_material ("iron") 7).deliver_material
        ("wood") 25).materials_delivered ("iron") 0 = 7 ∧
      ((BUILDING_DEFINITIONS BuildingType.house).required_resources.all
        (fun kv => kv.1 ≠ ("iron"))) = true ∧
      ((exampleHouse.deliver_material ("iron") 7).deliver_material
        ("wood") 25).get_required_materials = [(("stone"), 10)] ∧
      ((exampleHouse.deliver_material ("iron") 7).deliver_material
        ("wood") 25).has_all_materials = false) := by
  refine ⟨?_, ?_, ?_, by decide⟩
  · intro b rt amount
    unfold Building.deliver_material
    exact dictGet_dictSet_self _ _ _ _
  · intro b rt rt2 amount hne
    unfold Building.deliver_material
    exact dictGet_dictSet_other _ _ _ _ _ hne
  · intro b b2 htype h
    have hreq : b.get_required_materials = b2.get_required_materials := by
      unfold Building.get_required_materials Building.get_definition
      rw [htype]
      exact required_fold_congr _ _ _ (by rw [← htype]; exact h) []
    exact ⟨hreq, by unfold Building.has_all_materials; rw [hreq]⟩

/-- Witness for C10 at concrete inputs. -/
theorem c10_witness :
    (dictGet (exampleHouse.deliver_material ("wood") 5).materials_delivered
        ("wood") 0 = dictGet exampleHouse.materials_delivered ("wood") 0 + 5) ∧
    (dictGet (exampleHouse.deliver_material ("wood") 5).materials_delivered
        ("stone") 0 = dictGet exampleHouse.materials_delivered ("stone") 0) ∧
    ((exampleHouse.deliver_material ("wood") 25).get_required_materials =
      ((exampleHouse.deliver_material ("iron") 7).deliver_material ("wood") 25).get_required_materials) := by
  refine ⟨?_, ?_, ?_⟩
  · exact c10_deliver_unbounded.1 exampleHouse ("wood") 5
  · exact c10_deliver_unbounded.2.1 exampleHouse ("wood") ("stone") 5 (by decide)
  · exact (c10_deliver_unbounded.2.2.1
      (exampleHouse.deliver_material ("wood") 25)
      ((exampleHouse.deliver_material ("iron") 7).deliver_material ("wood") 25)
      (by decide) (by decide)).1

/-! ## C8 — biome classification is a first-wins argmax over the
definition table -/

theorem biome_fold_spec (t r : ℚ) :
    ∀ (l : List (BiomeType × BiomeProperties)) (b0 : BiomeType) (s0 : ℚ),
      (l.foldl (biomeStep t r) (b0, some s0) = (b0, some s0) ∧
        ∀ e ∈ l, biomeScore e.2 t r ≤ s0) ∨
      (∃ pre bp post, l = pre ++ bp :: post ∧
        l.foldl (biomeStep t r) (b0, some s0) = (bp.1, some (biomeScore bp.2 t r)) ∧
        s0 < biomeScore bp.2 t r ∧
        (∀ e ∈ pre, biomeScore e.2 t r < biomeScore bp.2 t r) ∧
        (∀ e ∈ post, biomeScore e.2 t r ≤ biomeScore bp.2 t r)) := by
  intro l
  induction l with
  | nil =>
      intro b0 s0
      left
      exact ⟨rfl, by simp⟩
  | cons a rest ih =>
      intro b0 s0
      simp only [List.foldl_cons]
      by_cases hgt : s0 < biomeScore a.2 t r
      · have hstep : biomeStep t r (b0, some s0) a = (a.1, some (biomeScore a.2 t r)) := by
          simp [biomeStep, hgt]
        rw [hstep]
        rcases ih a.1 (biomeScore a.2 t r) with
          ⟨heq, hall⟩ | ⟨pre, bp, post, hl, hfold, hlt, hpre, hpost⟩
        · right
          exact ⟨[], a, rest, by simp, heq, hgt, by simp, hall⟩
        · right
          refine ⟨a :: pre, bp, post, by rw [hl, List.cons_append], hfold,
            lt_trans hgt hlt, ?_, hpost⟩
          intro e he
          rcases List.mem_cons.mp he with h | h
          · rw [h]; exact hlt
          · exact hpre e h
      · push_neg at hgt
        have hstep : biomeStep t r (b0, some s0) a = (b0, some s0) := by
          simp [biomeStep, not_lt.mpr hgt]
        rw [hstep]
        rcases ih b0 s0 with
          ⟨heq, hall⟩ | ⟨pre, bp, post, hl, hfold, hlt, hpre, hpost⟩
        · left
          refine ⟨heq, ?_⟩
          intro e he
          rcases List.mem_cons.mp he with h | h
          · rw [h]; exact hgt
          · exact hall e h
        · right
          refine ⟨a :: pre, bp, post, by rw [hl, List.cons_append], hfold, hlt, ?_, hpost⟩
          intro e he
          rcases List.mem_cons.mp he with h | h
          · rw [h]; exact lt_of_le_of_lt hgt hlt
          · exact hpre e h

/-- C8: `get_biome_from_climate` returns the biome of the first definition
table entry attaining the maximal combined score
`temp_match * rain_match` (each factor is 1 inside the declared range and
decays linearly with the out-of-range distance — this is the definition of
`biomeScore` above); every earlier entry scores strictly less, and no entry
scores more. -/
theorem c8_biome_argmax (t r : ℚ) :
    ∃ bp pre post,
      BIOME_DEFINITIONS = pre ++ bp :: post ∧
      bp.1 = get_biome_from_climate t r ∧
      (∀ e ∈ pre, biomeScore e.2 t r < biomeScore bp.2 t r) ∧
      (∀ e ∈ BIOME_DEFINITIONS, biomeScore e.2 t r ≤ biomeScore bp.2 t r) := by
  obtain ⟨d1, rest, hBD⟩ : ∃ d1 rest, BIOME_DEFINITIONS = d1 :: rest := ⟨_, _, rfl⟩
  have hfold0 : get_biome_from_climate t r =
      (rest.foldl (biomeStep t r) (d1.1, some (biomeScore d1.2 t r))).1 := by
    unfold get_biome_from_climate
    rw [hBD]
    rfl
  rcases biome_fold_spec t r rest d1.1 (biomeScore d1.2 t r) with
    ⟨heq, hall⟩ | ⟨pre, bp, post, hl, hfoldr, hlt, hpre, hpost⟩
  · refine ⟨d1, [], rest, by simp [hBD], ?_, by simp, ?_⟩
    · rw [hfold0, heq]
    · intro e he
      rw [hBD] at he
      rcases List.mem_cons.mp he with h | h
      · rw [h]
      · exact hall e h
  · refine ⟨bp, d1 :: pre, post, by rw [hBD, hl]; rfl, ?_, ?_, ?_⟩
    · rw [hfold0, hfoldr]
    · intro e he
      rcases List.mem_cons.mp he with h | h
      · rw [h]; exact hlt
      · exact hpre e h
    · intro e he
      rw [hBD] at he
      rcases List.mem_cons.mp he with h | h
      · rw [h]; exact le_of_lt hlt
      · rw [hl] at h
        rcases List.mem_append.mp h with h2 | h2
        · exact le_of_lt (hpre e h2)
        · rcases List.mem_cons.mp h2 with h3 | h3
          · rw [h3]
          · exact hpost e h3

/-! ## C4 — world map generation is deterministic -/

/-- Placeholder world tile used only as the out-of-range default of list
indexing in statements (never reached under the stated bounds). -/
def dfltWorldTile : WorldTile :=
  { x := 0, y := 0, elevation := 0, temperature := 0, rainfall := 0,
    biome := BiomeType.grassland }

/-- C4: `generate_world_map` consumes no random state — in this embedding
it is a pure function of the three seeded noise channels and the
dimensions, so two calls with the same seed (hence the same channels)
return identical grids, and every cell is exactly `world_cell`, a pure
function of (noise channels, x, y, width, height). -/
theorem c4_world_map_determinism (noiseE noiseT noiseR : ℚ → ℚ → ℚ)
    (width height x y : ℕ) :
    (generate_world_map noiseE noiseT noiseR width height =
      generate_world_map noiseE noiseT noiseR width height) ∧
    (x < width → y < height →
      ((generate_world_map noiseE noiseT noiseR width height).getD y []).getD x
          dfltWorldTile =
        world_cell noiseE noiseT noiseR width height x y) := by
  refine ⟨rfl, ?_⟩
  intro hx hy
  unfold generate_world_map
  rw [getD_map_range _ height y hy]
  exact getD_map_range _ width x hx _

/-- Witness for C4 at a concrete input. -/
theorem c4_witness :
    ((generate_world_map (fun _ _ => 0) (fun _ _ => 0) (fun _ _ => 0) 1 1).getD 0
        []).getD 0 dfltWorldTile =
      world_cell (fun _ _ => 0) (fun _ _ => 0) (fun _ _ => 0) 1 1 0 0 :=
  (c4_world_map_determinism (fun _ _ => 0) (fun _ _ => 0) (fun _ _ => 0)
    1 1 0 0).2 (by decide) (by decide)

/-! ## C6 — construction ordering -/

theorem add_progress_complete_spec (bb : Building) (am : ℚ) :
    (bb.add_construction_progress am).state = BuildingState.complete →
    bb.state = BuildingState.complete ∨
    ((bb.add_construction_progress am).construction_progress =
      (BUILDING_DEFINITIONS bb.building_type).construction_work ∧
     (BUILDING_DEFINITIONS bb.building_type).construction_work ≤
      bb.construction_progress + am) := by
  unfold Building.add_construction_progress Building.get_definition
  dsimp only
  split_ifs with h1 h2
  · intro _
    right
    exact ⟨rfl, h2⟩
  · intro hc
    dsimp only at hc
    rw [h1] at hc
    exact absurd hc (by decide)
  · intro hc
    exact Or.inl hc

theorem add_progress_of_not_uc (bb : Building) (am : ℚ)
    (h : bb.state ≠ BuildingState.under_construction) :
    bb.add_construction_progress am = bb := by
  unfold Building.add_construction_progress
  rw [if_neg h]

/-- The building returned by `_update_construction` is either the
materials-gated Planned→UnderConstruction flip of the input, or that
building with one tick of construction work added. -/
theorem update_construction_building_cases (c : Citizen) (b : Building) (dt : ℚ) :
    (update_construction c b dt).2 =
      (if b.state = BuildingState.planned ∧ b.has_all_materials
        then { b with state := BuildingState.under_construction } else b) ∨
    (update_construction c b dt).2 =
      (if b.state = BuildingState.planned ∧ b.has_all_materials
        then { b with state := BuildingState.under_construction } else b
        ).add_construction_progress
        (10 * (1 + (c.construction_skill : ℚ) / 20) * dt) := by
  unfold update_construction
  dsimp only
  split_ifs <;> first
    | (left; rfl)
    | (right; rfl)

/-- C6: under `_update_construction` a building leaves Planned for
UnderConstruction only when `has_all_materials()` holds, and whenever the
step (or a direct `add_construction_progress` call) makes it Complete, the
resulting `construction_progress` equals the required `construction_work`
and the progress accumulated that tick had reached the threshold (so a
building is never made Complete while its progress is below
`construction_work`). -/
theorem c6_construction_ordering (c : Citizen) (b : Building) (delta_time : ℚ)
    (b2 : Building) (amount : ℚ) :
    ((b.state = BuildingState.planned ∧
      (update_construction c b delta_time).2.state = BuildingState.under_construction) →
      b.has_all_materials = true) ∧
    ((update_construction c b delta_time).2.state = BuildingState.complete →
      b.state = BuildingState.complete ∨
      (update_construction c b delta_time).2.construction_progress =
        (BUILDING_DEFINITIONS b.building_type).construction_work) ∧
    ((b2.add_construction_progress amount).state = BuildingState.complete →
      b2.state = BuildingState.complete ∨
      ((b2.add_construction_progress amount).construction_progress =
        (BUILDING_DEFINITIONS b2.building_type).construction_work ∧
       (BUILDING_DEFINITIONS b2.building_type).construction_work ≤
        b2.construction_progress + amount)) := by
  refine ⟨?_, ?_, add_progress_complete_spec b2 amount⟩
  · rintro ⟨hplan, hres⟩
    by_cases hcond : b.state = BuildingState.planned ∧ b.has_all_materials = true
    · exact hcond.2
    · exfalso
      rcases update_construction_building_cases c b delta_time with hcase | hcase <;>
        rw [if_neg hcond] at hcase
      · rw [hcase, hplan] at hres
        exact absurd hres (by decide)
      · rw [hcase, add_progress_of_not_uc b _ (by rw [hplan]; decide), hplan] at hres
        exact absurd hres (by decide)
  · intro hres
    by_cases hcond : b.state = BuildingState.planned ∧ b.has_all_materials = true
    · rcases update_construction_building_cases c b delta_time with hcase | hcase <;>
        rw [if_pos hcond] at hcase
      · rw [hcase] at hres
        exact absurd hres (by simp)
      · rw [hcase] at hres ⊢
        rcases add_progress_complete_spec _ _ hres with huc | hprog
        · exact absurd huc (by simp)
        · exact Or.inr hprog.1
    · rcases update_construction_building_cases c b delta_time with hcase | hcase <;>
        rw [if_neg hcond] at hcase
      · rw [hcase] at hres
        exact Or.inl hres
      · rw [hcase] at hres ⊢
        rcases add_progress_complete_spec _ _ hres with hcomp | hprog
        · exact Or.inl hcomp
        · exact Or.inr hprog.1

/-- A planned House with all its materials delivered. -/
def suppliedHouse : Building :=
  { exampleHouse with materials_delivered := [(("wood"), 20), (("stone"), 10)] }

/-- A House under construction with 95 of its 100 required work done. -/
def almostBuiltHouse : Building :=
  { exampleHouse with state := BuildingState.under_construction, construction_progress := 95 }

/-- A citizen standing far from the example House. -/
def farCitizen : Citizen := { id := 1, name := (""), x := 50, y := 50 }

/-- Witness for C6 at concrete inputs: a fully supplied planned House whose
citizen is far away flips to UnderConstruction (first conjunct), and a
95%-built House receiving 10 work completes at exactly 100 progress (third
conjunct). -/
theorem c6_witness :
    suppliedHouse.has_all_materials = true ∧
    (almostBuiltHouse.add_construction_progress 10).construction_progress = 100 := by
  constructor
  · exact (c6_construction_ordering farCitizen suppliedHouse 1
      almostBuiltHouse 10).1 ⟨by decide, by with_unfolding_all decide⟩
  · have h := (c6_construction_ordering farCitizen suppliedHouse 1
      almostBuiltHouse 10).2.2 (by with_unfolding_all decide)
    rcases h with h | h
    · exact absurd h (by decide)
    · have h2 := h.1
      rw [h2]
      with_unfolding_all decide

/-! ## C2 — hauling delivers away from the building center (code bug)

`Citizen.has_reached_target()` returns `True` whenever no movement target is
set, and the hauling state machine never sets one (`assign_task` and
`clear_task` leave `target_x = None`, and `_move_citizen_to` is only called
from the not-reached branch, which is unreachable while the target is
`None`).  So a hauling citizen picks up materials on the first tick and
calls `deliver_material` on the second tick from wherever it stands,
without ever walking to the stockpile or to the building center. -/

def zeroHeuristic : ℤ → ℤ → ℤ → ℤ → ℚ := fun _ _ _ _ => 0

def zeroPick : List PNode → ℕ := fun _ => 0

/-- A planned House at (20, 20); its center is (21.5, 21.5). -/
def haulBuilding : Building :=
  { id := 2, building_type := BuildingType.house, x := 20, y := 20 }

/-- A freshly assigned hauling citizen standing at (0, 0) with no target. -/
def haulCitizen : Citizen :=
  { id := 1, name := (""), x := 0, y := 0, state := CitizenState.walking,
    current_job := some JobType.hauling }

def haulTiles : List (List LTile) := generate_fallback_map 3 3

/-- First `_update_hauling` tick. -/
def haulStep1 : Citizen × Building × List (String × ℤ) :=
  update_hauling zeroHeuristic zeroPick haulCitizen haulBuilding
    [haulBuilding] [(("wood"), 50)] 0.1 haulTiles

/-- Second `_update_hauling` tick. -/
def haulStep2 : Citizen × Building × List (String × ℤ) :=
  update_hauling zeroHeuristic zeroPick haulStep1.1 haulStep1.2.1
    [haulStep1.2.1] haulStep1.2.2 0.1 haulTiles

/-- C2 (refuting the claimed behaviour, which matches the comments in the
source): on tick 1 the citizen at (0, 0) — far from both the stockpile
fallback (5, 5) and the building — immediately picks up 5 wood, and on
tick 2 `deliver_material` runs while the citizen is still at (0, 0),
squared distance 924.5 from the building center (21.5, 21.5), far beyond
the 0.5 arrival threshold.  The task is kept because materials are still
missing, as the claim says, but delivery did not happen at the center. -/
theorem c2_hauling_delivery_bug :
    haulStep1.1.carrying_resource = some ("wood") ∧
    haulStep1.1.carrying_amount = 5 ∧
    haulStep1.1.x = 0 ∧ haulStep1.1.y = 0 ∧
    haulStep1.1.target_x = none ∧
    dictGet haulStep1.2.1.materials_delivered ("wood") 0 = 0 ∧
    dictGet haulStep2.2.1.materials_delivered ("wood") 0 = 5 ∧
    haulStep2.1.x = 0 ∧ haulStep2.1.y = 0 ∧
    haulBuilding.get_center = (21.5, 21.5) ∧
    ((0 : ℚ) - 21.5) * ((0 : ℚ) - 21.5) + ((0 : ℚ) - 21.5) * ((0 : ℚ) - 21.5) ≥
      0.5 * 0.5 ∧
    haulStep2.1.current_job = some JobType.hauling := by
  with_unfolding_all decide

/-! ## C7 — storage cap enforcement -/

/-- The per-call arguments of one gathering-update invocation (the shared
stockpile dict and building list are threaded separately). -/
structure GatherCall where
  citizen : Citizen
  node : Resource
  tiles : List (List LTile)
  delta_time : ℚ
  gather_time : List (ℤ × ℚ)

/-- A sequence of `_update_gathering` calls as issued by `GameState.update`,
threading the stockpile dict through. -/
def run_gather_deposits (hfun : ℤ → ℤ → ℤ → ℤ → ℚ) (pickIdx : List PNode → ℕ)
    (buildings : List Building) (steps : List GatherCall)
    (resources : List (String × ℤ)) : List (String × ℤ) :=
  steps.foldl (fun res s =>
    (game_update_gathering hfun pickIdx s.citizen s.node s.tiles res
      s.delta_time buildings s.gather_time).2.2.1) resources

/-- `_move_citizen_to` only recomputes the path and movement target; the
cargo fields are untouched. -/
theorem move_citizen_to_carrying_amount (hfun : ℤ → ℤ → ℤ → ℤ → ℚ)
    (pickIdx : List PNode → ℕ) (c : Citizen) (tx ty : ℚ)
    (tiles : List (List LTile)) (buildings : List Building) :
    (move_citizen_to hfun pickIdx c tx ty tiles buildings).carrying_amount =
      c.carrying_amount := by
  unfold move_citizen_to Citizen.set_target
  split
  · rfl
  · rfl

/-- The stockpile dict after `_update_gathering` is either unchanged or a
capacity-checked deposit of the carried amount. -/
theorem update_gathering_resources_cases (hfun : ℤ → ℤ → ℤ → ℤ → ℚ)
    (pickIdx : List PNode → ℕ) (c : Citizen) (node : Resource)
    (tiles : List (List LTile)) (resources : List (String × ℤ)) (dt : ℚ)
    (buildings : List Building) (gt : List (ℤ × ℚ))
    (storage_check : Option (ℤ → Bool)) :
    (update_gathering hfun pickIdx c node tiles resources dt buildings gt
      storage_check).2.2.1 = resources ∨
    (∃ carried, c.carrying_resource = some carried ∧
      (match storage_check with
        | none => true
        | some f => f c.carrying_amount) = true ∧
      (update_gathering hfun pickIdx c node tiles resources dt buildings gt
        storage_check).2.2.1 =
        dictSet resources carried (dictGet resources carried 0 + c.carrying_amount)) := by
  have hamt := move_citizen_to_carrying_amount hfun pickIdx c
    (get_stockpile_location buildings).1 (get_stockpile_location buildings).2
    tiles buildings
  unfold update_gathering
  cases hc : c.carrying_resource with
  | none =>
      left
      unfold update_gathering_not_carrying
      dsimp only
      repeat' split
      all_goals rfl
  | some carried =>
      unfold update_gathering_carrying
      dsimp only
      split
      · split
        next h2 =>
          right
          refine ⟨carried, rfl, ?_, ?_⟩
          · rw [← hamt]
            exact h2
          · dsimp only
            rw [hamt]
        next h2 =>
          left
          rfl
      · left
        rfl

/-- One game-instantiated gathering update preserves the storage cap. -/
theorem gather_step_preserves_cap (hfun : ℤ → ℤ → ℤ → ℤ → ℚ)
    (pickIdx : List PNode → ℕ) (c : Citizen) (node : Resource)
    (tiles : List (List LTile)) (resources : List (String × ℤ)) (dt : ℚ)
    (buildings : List Building) (gt : List (ℤ × ℚ))
    (h : dictValuesSum resources ≤ get_total_storage_capacity buildings) :
    dictValuesSum ((game_update_gathering hfun pickIdx c node tiles resources
      dt buildings gt).2.2.1) ≤ get_total_storage_capacity buildings := by
  unfold game_update_gathering
  rcases update_gathering_resources_cases hfun pickIdx c node tiles resources dt
    buildings gt (some (can_add_resources buildings resources)) with
    heq | ⟨carried, _, hcheck, heq⟩
  · rw [heq]
    exact h
  · rw [heq, dictValuesSum_dictSet]
    have hcan : get_total_storage_capacity buildings - dictValuesSum resources ≥
        c.carrying_amount := by
      simpa [can_add_resources] using hcheck
    omega

/-- A citizen at the stockpile fallback location (5, 5) carrying 10 wood. -/
def capCitizen : Citizen :=
  { id := 3, name := (""), x := 5, y := 5, state := CitizenState.carrying,
    current_job := some JobType.gathering,
    carrying_resource := some ("wood"), carrying_amount := 10 }

/-- A stockpile holding exactly 500 units, the base capacity. -/
def capResources : List (String × ℤ) := [(("wood"), 490), (("stone"), 10)]

def capTiles : List (List LTile) := generate_fallback_map 6 6

/-- The scenario step: a deposit attempt of 10 wood at a full 500/500 store. -/
def capResult : Citizen × Resource × List (String × ℤ) × List (ℤ × ℚ) :=
  game_update_gathering zeroHeuristic zeroPick capCitizen
    (mkResource ResourceType.tree 3 3) capTiles capResources 0.1 [] []

/-- C7: starting at or below capacity, any sequence of `_update_gathering`
deposit attempts (with the `can_add_resources` check `GameState.update`
passes) keeps `sum(stockpile.values()) <= total_storage_capacity()`; in the
concrete 500/500 scenario a 10-wood deposit attempt leaves the stockpile
unchanged at 500 and the cargo is dropped (cleared, not stored). -/
theorem c7_storage_cap :
    (∀ (hfun : ℤ → ℤ → ℤ → ℤ → ℚ) (pickIdx : List PNode → ℕ)
       (buildings : List Building) (steps : List GatherCall)
       (resources : List (String × ℤ)),
      dictValuesSum resources ≤ get_total_storage_capacity buildings →
      dictValuesSum (run_gather_deposits hfun pickIdx buildings steps resources) ≤
        get_total_storage_capacity buildings) ∧
    (dictValuesSum capResult.2.2.1 = 500 ∧
     capResult.2.2.1 = capResources ∧
     capResult.1.carrying_resource = none ∧
     capResult.1.carrying_amount = 0 ∧
     get_total_storage_capacity ([] : List Building) = 500) := by
  constructor
  · intro hfun pickIdx buildings steps
    induction steps with
    | nil => intro resources h; exact h
    | cons s rest ih =>
        intro resources h
        exact ih _ (gather_step_preserves_cap hfun pickIdx s.citizen s.node
          s.tiles resources s.delta_time buildings s.gather_time h)
  · with_unfolding_all decide

/-- Witness for C7 at a concrete input: the scenario step, run as a
one-element sequence from the full stockpile. -/
theorem c7_witness :
    dictValuesSum (run_gather_deposits zeroHeuristic zeroPick []
      [{ citizen := capCitizen, node := mkResource ResourceType.tree 3 3,
         tiles := capTiles, delta_time := 0.1, gather_time := [] }]
      capResources) ≤ get_total_storage_capacity [] :=
  c7_storage_cap.1 zeroHeuristic zeroPick []
    [{ citizen := capCitizen, node := mkResource ResourceType.tree 3 3,
       tiles := capTiles, delta_time := 0.1, gather_time := [] }]
    capResources (by decide)

/-! ## C3 — A* path validity -/

theorem mem_pyRange {a b x : ℤ} : x ∈ pyRange a b ↔ a ≤ x ∧ x < b := by
  unfold pyRange
  rw [List.mem_map]
  constructor
  · rintro ⟨i, hi, rfl⟩
    rw [List.mem_range] at hi
    omega
  · intro h
    refine ⟨(x - a).toNat, ?_, ?_⟩
    · rw [List.mem_range]
      omega
    · omega

/-- Every position along the parent chain of a node satisfies `P`. -/
def PNode.chainAll (P : ℤ × ℤ → Prop) : PNode → Prop
  | PNode.root _ _ _ x y => P (x, y)
  | PNode.child _ _ _ x y q => P (x, y) ∧ PNode.chainAll P q

theorem chainAll_mem {P : ℤ × ℤ → Prop} :
    ∀ (n : PNode), n.chainAll P → ∀ p ∈ n.chain, P p := by
  intro n
  induction n with
  | root f g h x y =>
      intro hn p hp
      simp only [PNode.chain, List.mem_singleton] at hp
      rw [hp]
      exact hn
  | child f g h x y q ih =>
      intro hn p hp
      rcases List.mem_cons.mp hp with h2 | h2
      · rw [h2]
        exact hn.1
      · exact ih hn.2 p h2

/-- Every node pushed by one expansion step satisfies the chain invariant:
its own cell passed the bounds and walkability checks, and its parent chain
is the popped node. -/
theorem expandNode_chainAll {P : ℤ × ℤ → Prop}
    (hfun : ℤ → ℤ → ℤ → ℤ → ℚ) (goal_x goal_y : ℤ) (width height : ℕ)
    (tiles : List (List LTile)) (obstacles : List (ℤ × ℤ))
    (closed : List (ℤ × ℤ)) (current : PNode)
    (hcur : current.chainAll P)
    (hP : ∀ x y : ℤ,
      (0 ≤ x ∧ x < (width : ℤ) ∧ 0 ≤ y ∧ y < (height : ℤ)) →
      is_walkable x y tiles obstacles = true → P (x, y)) :
    ∀ n ∈ expandNode hfun goal_x goal_y width height tiles obstacles closed
      current, n.chainAll P := by
  intro n hn
  unfold expandNode at hn
  rcases List.mem_filterMap.mp hn with ⟨d, _, hfd⟩
  dsimp only at hfd
  split_ifs at hfd with h1 h2 h3 h4
  all_goals first
    | exact Option.noConfusion hfd
    | (injection hfd with hfd2
       subst hfd2
       simp only [PNode.chainAll]
       exact ⟨hP _ _ h1 h3, hcur⟩)

/-- Soundness of the bounded A* loop: from an open list whose nodes all
satisfy the chain invariant, a returned path only visits positions
satisfying `P`. -/
theorem astarLoop_sound (P : ℤ × ℤ → Prop)
    (hfun : ℤ → ℤ → ℤ → ℤ → ℚ) (pickIdx : List PNode → ℕ)
    (goal_x goal_y : ℤ) (width height : ℕ) (tiles : List (List LTile))
    (obstacles : List (ℤ × ℤ))
    (hP : ∀ x y : ℤ,
      (0 ≤ x ∧ x < (width : ℤ) ∧ 0 ≤ y ∧ y < (height : ℤ)) →
      is_walkable x y tiles obstacles = true → P (x, y)) :
    ∀ (fuel : ℕ) (open_list : List PNode) (closed : List (ℤ × ℤ))
      (path : List (ℤ × ℤ)),
      (∀ n ∈ open_list, n.chainAll P) →
      astarLoop hfun pickIdx goal_x goal_y width height tiles obstacles fuel
        open_list closed = some path →
      ∀ p ∈ path, P p := by
  intro fuel
  induction fuel with
  | zero =>
      intro ol closed path _ h
      exact absurd h (by simp [astarLoop])
  | succ fuel ih =>
      intro ol closed path hol h
      cases ol with
      | nil => exact absurd h (by simp [astarLoop])
      | cons o rest =>
          simp only [astarLoop] at h
          have hlen : pickIdx (o :: rest) % (o :: rest).length <
              (o :: rest).length :=
            Nat.mod_lt _ (by simp)
          have hcurmem : (o :: rest).getD
              (pickIdx (o :: rest) % (o :: rest).length) o ∈ o :: rest := by
            rw [List.getD_eq_getElem (o :: rest) o hlen]
            exact List.getElem_mem hlen
          have hcur := hol _ hcurmem
          split at h
          · injection h with h2
            subst h2
            intro p hp
            rw [reconstruct_path, List.mem_reverse] at hp
            exact chainAll_mem _ hcur p hp
          · refine ih _ _ path ?_ h
            intro n hn
            rcases List.mem_append.mp hn with h2 | h2
            · exact hol n (List.eraseIdx_subset _ _ h2)
            · exact expandNode_chainAll hfun goal_x goal_y width height tiles
                obstacles _ _ hcur hP n h2

/-- Membership in the clipped building-footprint obstacle set. -/
theorem mem_buildingObstacles {buildings : List Building} {width height : ℕ}
    {p : ℤ × ℤ} (b : Building) (hb : b ∈ buildings)
    (hocc : b.occupies_tile p.1 p.2 = true)
    (hin : 0 ≤ p.1 ∧ p.1 < (width : ℤ) ∧ 0 ≤ p.2 ∧ p.2 < (height : ℤ)) :
    p ∈ buildingObstacles buildings width height := by
  unfold buildingObstacles
  rw [List.mem_flatMap]
  refine ⟨b, hb, ?_⟩
  rw [List.mem_flatMap]
  simp only [Building.occupies_tile, decide_eq_true_eq] at hocc
  refine ⟨p.2, mem_pyRange.mpr (by omega), ?_⟩
  rw [List.mem_filterMap]
  refine ⟨p.1, mem_pyRange.mpr (by omega), ?_⟩
  rw [if_pos (by omega)]

/-- The per-cell property established for returned waypoints: in bounds,
and either the start cell or a cell that passed `_is_walkable`. -/
def pathCellOk (width height : ℕ) (tiles : List (List LTile))
    (obstacles : List (ℤ × ℤ)) (start : ℤ × ℤ) (q : ℤ × ℤ) : Prop :=
  (0 ≤ q.1 ∧ q.1 < (width : ℤ) ∧ 0 ≤ q.2 ∧ q.2 < (height : ℤ)) ∧
  (q = start ∨ is_walkable q.1 q.2 tiles obstacles = true)

/-- C3 (amended): every waypoint of a returned path is in bounds; every
waypoint other than the start tile is non-Water; every waypoint other than
the start and goal tiles lies on no building footprint.  (The start tile
itself is never checked by the algorithm — see the counterexample.) -/
theorem c3_path_validity (hfun : ℤ → ℤ → ℤ → ℤ → ℚ)
    (pickIdx : List PNode → ℕ) (start_x start_y goal_x goal_y : ℤ)
    (tiles : List (List LTile)) (buildings : List Building)
    (max_iterations : ℕ) (path : List (ℤ × ℤ))
    (hfp : find_path hfun pickIdx start_x start_y goal_x goal_y tiles
      buildings max_iterations = some path) :
    ∀ p ∈ path,
      (0 ≤ p.1 ∧ p.1 < (((tiles.headD []).length : ℕ) : ℤ) ∧
        0 ≤ p.2 ∧ p.2 < ((tiles.length : ℕ) : ℤ)) ∧
      (p ≠ (start_x, start_y) →
        terrainAt tiles p.1.toNat p.2.toNat ≠ TerrainType.water) ∧
      (p ≠ (start_x, start_y) → p ≠ (goal_x, goal_y) →
        ∀ b ∈ buildings, b.occupies_tile p.1 p.2 = false) := by
  unfold find_path at hfp
  dsimp only at hfp
  split_ifs at hfp with h0 h1 h2 h3
  · injection hfp with hfp2
    subst hfp2
    intro p hp
    rw [List.mem_singleton] at hp
    subst hp
    exact ⟨h1, fun hne => absurd rfl hne, fun hne _ => absurd rfl hne⟩
  · intro p hp
    have hstart : ∀ n ∈ [PNode.root
        (0 + hfun start_x start_y goal_x goal_y) 0
        (hfun start_x start_y goal_x goal_y) start_x start_y],
        PNode.chainAll (pathCellOk (tiles.headD []).length tiles.length tiles
          ((buildingObstacles buildings (tiles.headD []).length
            tiles.length).filter (fun q => q ≠ (goal_x, goal_y)))
          (start_x, start_y)) n := by
      intro n hn
      rw [List.mem_singleton] at hn
      rw [hn]
      exact ⟨h1, Or.inl rfl⟩
    have hsound := astarLoop_sound
      (pathCellOk (tiles.headD []).length tiles.length tiles
        ((buildingObstacles buildings (tiles.headD []).length
          tiles.length).filter (fun q => q ≠ (goal_x, goal_y)))
        (start_x, start_y))
      hfun pickIdx goal_x goal_y (tiles.headD []).length tiles.length tiles
      ((buildingObstacles buildings (tiles.headD []).length
        tiles.length).filter (fun q => q ≠ (goal_x, goal_y)))
      (fun x y hb hw => ⟨hb, Or.inr hw⟩)
      max_iterations _ [] path hstart hfp p hp
    obtain ⟨hbounds, hrest⟩ := hsound
    refine ⟨hbounds, ?_, ?_⟩
    · intro hne
      rcases hrest with heq | hwalk
      · exact absurd heq hne
      · unfold is_walkable at hwalk
        split_ifs at hwalk with hmem hwater
        all_goals first
          | exact Bool.noConfusion hwalk
          | exact hwater
    · intro hne hnegoal b hb
      rcases hrest with heq | hwalk
      · exact absurd heq hne
      · unfold is_walkable at hwalk
        split_ifs at hwalk with hmem hwater
        all_goals first
          | exact Bool.noConfusion hwalk
          | (cases Bool.eq_false_or_eq_true (b.occupies_tile p.1 p.2) with
             | inl hocc =>
                 exact absurd (List.mem_filter.mpr
                   ⟨mem_buildingObstacles b hb hocc hbounds,
                    by simpa using hnegoal⟩) hmem
             | inr hocc => exact hocc)

/-- The 1×1 all-Water map. -/
def waterTiles : List (List LTile) := [[mkLTile 0 0 TerrainType.water]]

/-- Counterexample to C3 as stated: with start == goal on a Water tile,
`find_path` returns the single-waypoint path without any walkability
check, so a returned waypoint refers to a Water tile. -/
theorem c3_counterexample :
    find_path zeroHeuristic zeroPick 0 0 0 0 waterTiles [] 1000 =
      some [(0, 0)] ∧
    terrainAt waterTiles 0 0 = TerrainType.water := by
  with_unfolding_all decide

/-- A 2×2 all-Grass map. -/
def grassTiles2 : List (List LTile) := generate_fallback_map 2 2

/-- Witness for C3 at a concrete input: a diagonal path on the 2×2 grass
map; its non-start waypoint (1, 1) is non-Water by the theorem. -/
theorem c3_witness :
    find_path zeroHeuristic zeroPick 0 0 1 1 grassTiles2 [] 1000 =
      some [(0, 0), (1, 1)] ∧
    terrainAt grassTiles2 1 1 ≠ TerrainType.water := by
  constructor
  · with_unfolding_all decide
  · exact ((c3_path_validity zeroHeuristic zeroPick 0 0 1 1 grassTiles2 []
      1000 [(0, 0), (1, 1)] (by with_unfolding_all decide)) (1, 1)
      (by decide)).2.1 (by decide)

/-! ## C1 — local map playability -/

theorem terrain_setTerrain (g : LGrid) (x y : ℤ) (t : TerrainType) (a b : ℤ) :
    ((setTerrain g x y t) a b).terrain_type =
      if a = x ∧ b = y then t else (g a b).terrain_type := by
  unfold setTerrain
  split <;> rfl

theorem terrain_setResource (g : LGrid) (x y : ℤ) (r : Option Resource) (a b : ℤ) :
    ((setResource g x y r) a b).terrain_type = (g a b).terrain_type := by
  unfold setResource
  split <;> rfl

theorem terrain_setTerrain_pres (Q : TerrainType → Prop) (g : LGrid) (x y : ℤ)
    (t : TerrainType) (a b : ℤ) (ht : Q t) (hg : Q ((g a b).terrain_type)) :
    Q (((setTerrain g x y t) a b).terrain_type) := by
  rw [terrain_setTerrain]
  split_ifs with h
  · exact ht
  · exact hg

theorem foldl_terrain_pres {α : Type} (Q : TerrainType → Prop)
    (f : LGrid → α → LGrid) (a b : ℤ)
    (hf : ∀ g i, Q ((g a b).terrain_type) → Q (((f g i) a b).terrain_type)) :
    ∀ (l : List α) (g : LGrid), Q ((g a b).terrain_type) →
      Q (((l.foldl f g) a b).terrain_type) := by
  intro l
  induction l with
  | nil => intro g hg; exact hg
  | cons i rest ih => intro g hg; exact ih (f g i) (hf g i hg)

theorem foldl_terrain_pres2 {α : Type} (Q : TerrainType → Prop)
    (f : LGrid × Rng → α → LGrid × Rng) (a b : ℤ)
    (hf : ∀ st i, Q ((st.1 a b).terrain_type) → Q (((f st i).1 a b).terrain_type)) :
    ∀ (l : List α) (st : LGrid × Rng), Q ((st.1 a b).terrain_type) →
      Q (((l.foldl f st).1 a b).terrain_type) := by
  intro l
  induction l with
  | nil => intro st hst; exact hst
  | cons i rest ih => intro st hst; exact ih (f st i) (hf st i hst)

/-- Every write any border loop performs is Grass, so each loop preserves
any terrain predicate that holds of Grass. -/
theorem fixEdgeWater_pres (Q : TerrainType → Prop) (hQg : Q TerrainType.grass)
    (g : LGrid) (n : ℕ) (pos : ℤ → ℤ × ℤ) (a b : ℤ)
    (hg : Q ((g a b).terrain_type)) :
    Q (((fixEdgeWater g n pos) a b).terrain_type) := by
  unfold fixEdgeWater
  refine foldl_terrain_pres Q _ a b (fun g2 i hq => ?_) (pyRange 0 n) g hg
  dsimp only
  split_ifs with h1
  · exact terrain_setTerrain_pres Q g2 (pos i).1 (pos i).2 TerrainType.grass a b hQg hq
  · exact hq

/-- After a border loop runs, every edge cell it visited is non-Water. -/
theorem fixEdgeWater_fixes (g : LGrid) (n : ℕ) (pos : ℤ → ℤ × ℤ) (i : ℤ)
    (hi : i ∈ pyRange 0 n) :
    ((fixEdgeWater g n pos) (pos i).1 (pos i).2).terrain_type ≠
      TerrainType.water := by
  unfold fixEdgeWater
  refine foldl_establish _
    (fun g2 j => (g2 (pos j).1 (pos j).2).terrain_type ≠ TerrainType.water)
    ?_ ?_ (pyRange 0 n) g i hi
  · intro g2 j
    dsimp only
    split_ifs with h1
    · rw [terrain_setTerrain, if_pos (And.intro rfl rfl)]
      decide
    · exact h1
  · intro g2 j k hk
    dsimp only
    split_ifs with h1
    · rw [terrain_setTerrain]
      split_ifs with h2
      · decide
      · exact hk
    · exact hk

theorem centerStep_pres (Q : TerrainType → Prop) (hQg : Q TerrainType.grass)
    (w h : ℕ) (cx cy : ℤ) (g : LGrid) (dy dx a b : ℤ)
    (hg : Q ((g a b).terrain_type)) :
    Q (((centerStep w h cx cy g dy dx) a b).terrain_type) := by
  unfold centerStep
  split_ifs with h1 h2
  · exact terrain_setTerrain_pres Q g (cx + dx) (cy + dy) TerrainType.grass a b hQg hg
  · exact hg
  · exact hg

theorem centerFix_pres (Q : TerrainType → Prop) (hQg : Q TerrainType.grass)
    (g : LGrid) (w h : ℕ) (a b : ℤ) (hg : Q ((g a b).terrain_type)) :
    Q (((centerFix g w h) a b).terrain_type) := by
  unfold centerFix
  refine foldl_terrain_pres Q _ a b (fun g2 dy hq => ?_) (pyRange (-5) 6) g hg
  exact foldl_terrain_pres Q _ a b
    (fun g3 dx hq3 => centerStep_pres Q hQg w h _ _ g3 dy dx a b hq3)
    (pyRange (-5) 6) g2 hq

/-- After the center loop runs, every in-bounds cell of the 11×11 block is
Grass or Dirt. -/
theorem centerFix_center (g : LGrid) (w h : ℕ) (dx dy : ℤ)
    (hdx : dx ∈ pyRange (-5) 6) (hdy : dy ∈ pyRange (-5) 6)
    (hb : 0 ≤ ((w / 2 : ℕ) : ℤ) + dx ∧ ((w / 2 : ℕ) : ℤ) + dx < (w : ℤ) ∧
          0 ≤ ((h / 2 : ℕ) : ℤ) + dy ∧ ((h / 2 : ℕ) : ℤ) + dy < (h : ℤ)) :
    ((centerFix g w h) (((w / 2 : ℕ) : ℤ) + dx)
        (((h / 2 : ℕ) : ℤ) + dy)).terrain_type = TerrainType.grass ∨
    ((centerFix g w h) (((w / 2 : ℕ) : ℤ) + dx)
        (((h / 2 : ℕ) : ℤ) + dy)).terrain_type = TerrainType.dirt := by
  unfold centerFix
  refine foldl_establish _
    (fun g2 dy2 => ∀ dx2, dx2 ∈ pyRange (-5) 6 →
      (0 ≤ ((w / 2 : ℕ) : ℤ) + dx2 ∧ ((w / 2 : ℕ) : ℤ) + dx2 < (w : ℤ) ∧
       0 ≤ ((h / 2 : ℕ) : ℤ) + dy2 ∧ ((h / 2 : ℕ) : ℤ) + dy2 < (h : ℤ)) →
      ((g2 (((w / 2 : ℕ) : ℤ) + dx2)
          (((h / 2 : ℕ) : ℤ) + dy2)).terrain_type = TerrainType.grass ∨
       (g2 (((w / 2 : ℕ) : ℤ) + dx2)
          (((h / 2 : ℕ) : ℤ) + dy2)).terrain_type = TerrainType.dirt))
    ?_ ?_ (pyRange (-5) 6) g dy hdy dx hdx hb
  · intro g2 dy2 dx2 hdx2 hb2
    refine foldl_establish _
      (fun g3 dx3 =>
        (0 ≤ ((w / 2 : ℕ) : ℤ) + dx3 ∧ ((w / 2 : ℕ) : ℤ) + dx3 < (w : ℤ) ∧
         0 ≤ ((h / 2 : ℕ) : ℤ) + dy2 ∧ ((h / 2 : ℕ) : ℤ) + dy2 < (h : ℤ)) →
        ((g3 (((w / 2 : ℕ) : ℤ) + dx3)
            (((h / 2 : ℕ) : ℤ) + dy2)).terrain_type = TerrainType.grass ∨
         (g3 (((w / 2 : ℕ) : ℤ) + dx3)
            (((h / 2 : ℕ) : ℤ) + dy2)).terrain_type = TerrainType.dirt))
      ?_ ?_ (pyRange (-5) 6) g2 dx2 hdx2 hb2
    · intro g3 dx3 hb3
      unfold centerStep
      split_ifs with h1
      · left
        rw [terrain_setTerrain, if_pos (And.intro rfl rfl)]
      · rcases not_and_or.mp h1 with hh | hh
        · exact Or.inl (not_not.mp hh)
        · exact Or.inr (not_not.mp hh)
    · intro g3 dx3 dx4 hq hb4
      exact centerStep_pres
        (fun t => t = TerrainType.grass ∨ t = TerrainType.dirt) (Or.inl rfl)
        w h _ _ g3 dy2 dx3 _ _ (hq hb4)
  · intro g2 dy2 dy3 hq dx2 hdx2 hb2
    exact foldl_terrain_pres
      (fun t => t = TerrainType.grass ∨ t = TerrainType.dirt) _
      (((w / 2 : ℕ) : ℤ) + dx2) (((h / 2 : ℕ) : ℤ) + dy3)
      (fun g3 dx3 hq3 => centerStep_pres
        (fun t => t = TerrainType.grass ∨ t = TerrainType.dirt) (Or.inl rfl)
        w h _ _ g3 dy2 dx3 _ _ hq3)
      (pyRange (-5) 6) g2 (hq dx2 hdx2 hb2)

/-- Border-ring guarantee of `_ensure_local_playability`: every border cell
is non-Water on exit (the border loops force Grass there and every later
write is Grass). -/
theorem ensure_border_no_water (g : LGrid) (w h : ℕ) (x y : ℤ)
    (hx : 0 ≤ x ∧ x < (w : ℤ)) (hy : 0 ≤ y ∧ y < (h : ℤ))
    (hedge : y = 0 ∨ y = (h : ℤ) - 1 ∨ x = 0 ∨ x = (w : ℤ) - 1) :
    ((ensure_local_playability g w h) x y).terrain_type ≠ TerrainType.water := by
  unfold ensure_local_playability
  rcases hedge with h0 | h0 | h0 | h0
  · subst h0
    exact centerFix_pres (fun t => t ≠ TerrainType.water) (by decide) _ w h x 0
      (fixEdgeWater_pres (fun t => t ≠ TerrainType.water) (by decide) _ h _ x 0
        (fixEdgeWater_pres (fun t => t ≠ TerrainType.water) (by decide) _ h _ x 0
          (fixEdgeWater_pres (fun t => t ≠ TerrainType.water) (by decide) _ w _ x 0
            (fixEdgeWater_fixes g w (fun x => (x, 0)) x
              (mem_pyRange.mpr ⟨hx.1, hx.2⟩)))))
  · subst h0
    exact centerFix_pres (fun t => t ≠ TerrainType.water) (by decide) _ w h
      x ((h : ℤ) - 1)
      (fixEdgeWater_pres (fun t => t ≠ TerrainType.water) (by decide) _ h _
        x ((h : ℤ) - 1)
        (fixEdgeWater_pres (fun t => t ≠ TerrainType.water) (by decide) _ h _
          x ((h : ℤ) - 1)
          (fixEdgeWater_fixes (fixEdgeWater g w (fun x => (x, 0))) w
            (fun x => (x, (h : ℤ) - 1)) x (mem_pyRange.mpr ⟨hx.1, hx.2⟩))))
  · subst h0
    exact centerFix_pres (fun t => t ≠ TerrainType.water) (by decide) _ w h 0 y
      (fixEdgeWater_pres (fun t => t ≠ TerrainType.water) (by decide) _ h _ 0 y
        (fixEdgeWater_fixes
          (fixEdgeWater (fixEdgeWater g w (fun x => (x, 0))) w
            (fun x => (x, (h : ℤ) - 1)))
          h (fun y => (0, y)) y (mem_pyRange.mpr ⟨hy.1, hy.2⟩)))
  · subst h0
    exact centerFix_pres (fun t => t ≠ TerrainType.water) (by decide) _ w h
      ((w : ℤ) - 1) y
      (fixEdgeWater_fixes
        (fixEdgeWater (fixEdgeWater (fixEdgeWater g w (fun x => (x, 0))) w
          (fun x => (x, (h : ℤ) - 1))) h (fun y => (0, y)))
        h (fun y => ((w : ℤ) - 1, y)) y (mem_pyRange.mpr ⟨hy.1, hy.2⟩))

/-- Center-block guarantee of `_ensure_local_playability`: every in-bounds
cell within Chebyshev distance 5 of (w / 2, h / 2) is Grass or Dirt on
exit. -/
theorem ensure_center_grass_dirt (g : LGrid) (w h : ℕ) (x y : ℤ)
    (hx : 0 ≤ x ∧ x < (w : ℤ)) (hy : 0 ≤ y ∧ y < (h : ℤ))
    (hcx : ((w / 2 : ℕ) : ℤ) - 5 ≤ x ∧ x ≤ ((w / 2 : ℕ) : ℤ) + 5)
    (hcy : ((h / 2 : ℕ) : ℤ) - 5 ≤ y ∧ y ≤ ((h / 2 : ℕ) : ℤ) + 5) :
    ((ensure_local_playability g w h) x y).terrain_type = TerrainType.grass ∨
    ((ensure_local_playability g w h) x y).terrain_type = TerrainType.dirt := by
  obtain ⟨dx, hdx, hxe⟩ : ∃ dx, dx ∈ pyRange (-5) 6 ∧ x = ((w / 2 : ℕ) : ℤ) + dx :=
    ⟨x - ((w / 2 : ℕ) : ℤ), mem_pyRange.mpr ⟨by omega, by omega⟩, by ring⟩
  obtain ⟨dy, hdy, hye⟩ : ∃ dy, dy ∈ pyRange (-5) 6 ∧ y = ((h / 2 : ℕ) : ℤ) + dy :=
    ⟨y - ((h / 2 : ℕ) : ℤ), mem_pyRange.mpr ⟨by omega, by omega⟩, by ring⟩
  subst hxe
  subst hye
  unfold ensure_local_playability
  exact centerFix_center _ w h dx dy hdx hdy
    ⟨by omega, by omega, by omega, by omega⟩

/-- Each splotch cell write of `_add_forests` is Forest, so the step
preserves any terrain predicate holding of Forest. -/
theorem forestCellStep_pres (Q : TerrainType → Prop)
    (hQf : Q TerrainType.forest) (w h : ℕ) (cx cy rad dy : ℤ)
    (st : LGrid × Rng) (dx a b : ℤ) (hst : Q ((st.1 a b).terrain_type)) :
    Q (((forestCellStep w h cx cy rad dy st dx).1 a b).terrain_type) := by
  unfold forestCellStep
  dsimp only
  split_ifs with h1 h2 h3 h4
  · exact terrain_setTerrain_pres Q st.1 (cx + dx) (cy + dy) TerrainType.forest
      a b hQf hst
  all_goals exact hst

theorem forestIter_pres (Q : TerrainType → Prop) (hQf : Q TerrainType.forest)
    (w h : ℕ) (td : ℚ) (st : LGrid × Rng) (i : ℕ) (a b : ℤ)
    (hst : Q ((st.1 a b).terrain_type)) :
    Q (((forestIter w h td st i).1 a b).terrain_type) := by
  unfold forestIter
  dsimp only
  split_ifs with h1
  · refine foldl_terrain_pres2 Q _ a b (fun st2 dy hq => ?_) _ _ hst
    refine foldl_terrain_pres2 Q _ a b (fun st3 dx hq3 => ?_) _ _ hq
    exact forestCellStep_pres Q hQf w h _ _ _ _ st3 dx a b hq3
  · exact hst

theorem add_forests_pres (Q : TerrainType → Prop) (hQf : Q TerrainType.forest)
    (g : LGrid) (td : ℚ) (w h : ℕ) (r : Rng) (a b : ℤ)
    (hg : Q ((g a b).terrain_type)) :
    Q (((add_forests g td w h r).1 a b).terrain_type) := by
  unfold add_forests
  split_ifs with h1
  · exact hg
  · exact foldl_terrain_pres2 Q _ a b
      (fun st i hq => forestIter_pres Q hQf w h td st i a b hq) _ (g, r) hg

/-- Every write `_smooth_terrain` performs is Grass. -/
theorem smooth_terrain_pres (Q : TerrainType → Prop) (hQg : Q TerrainType.grass)
    (g : LGrid) (w h : ℕ) (a b : ℤ) (hg : Q ((g a b).terrain_type)) :
    Q (((smooth_terrain g w h) a b).terrain_type) := by
  unfold smooth_terrain
  refine foldl_terrain_pres Q _ a b (fun g2 y2 hq => ?_) _ g hg
  refine foldl_terrain_pres Q _ a b (fun g3 x2 hq3 => ?_) _ g2 hq
  dsimp only
  split_ifs with hc
  · exact terrain_setTerrain_pres Q g3 x2 y2 TerrainType.grass a b hQg hq3
  · exact hq3

/-- `_place_resource_nodes` only attaches resources; terrain is unchanged
at every cell. -/
theorem place_resource_nodes_terrain (g : LGrid) (w h : ℕ) (r : Rng) (a b : ℤ) :
    ((place_resource_nodes g w h r).1 a b).terrain_type =
      (g a b).terrain_type := by
  unfold place_resource_nodes
  refine foldl_terrain_pres2 (fun t => t = (g a b).terrain_type) _ a b
    (fun st y2 hq => ?_) _ (g, r) rfl
  refine foldl_terrain_pres2 (fun t => t = (g a b).terrain_type) _ a b
    (fun st2 x2 hq2 => ?_) _ st hq
  dsimp only
  split_ifs with h1 h2 h3 h4
  all_goals first
    | exact (terrain_setResource _ _ _ _ a b).trans hq2
    | exact hq2

theorem terrainAt_materializeGrid (gg : LGrid) (w h : ℕ) (x y : ℕ)
    (hx : x < w) (hy : y < h) :
    terrainAt (materializeGrid gg w h) x y = (gg (x : ℤ) (y : ℤ)).terrain_type := by
  unfold terrainAt materializeGrid
  rw [getD_map_range _ _ _ hy]
  rw [getD_map_range _ _ _ hx]

theorem terrainAt_fallback (w h : ℕ) (x y : ℕ) (hx : x < w) (hy : y < h) :
    terrainAt (generate_fallback_map w h) x y = TerrainType.grass := by
  unfold terrainAt generate_fallback_map
  rw [getD_map_range _ _ _ hy]
  rw [getD_map_range _ _ _ hx]
  rfl

/-- C1 (amended): for every local map returned by `generate_local_map` (any
region, chunk, noise channels and random stream), every in-bounds cell of
the border ring (top and bottom rows, left and right columns) is non-Water;
and every in-bounds cell of the 11×11 block centered on
(width / 2, height / 2) is Grass, Dirt, or Forest.  The original claim that
the center block holds only Grass/Dirt is false, because `_add_forests`
runs after the center fix and may convert center Grass tiles to Forest (see
the counterexample). -/
theorem c1_local_map_playability
    (region_tiles : List (List RegionTile)) (chunk_x chunk_y : ℤ)
    (chunk_width chunk_height local_width local_height : ℕ)
    (noiseD noiseR : ℚ → ℚ → ℚ) (rng : Rng) (x y : ℕ)
    (hx : x < local_width) (hy : y < local_height) :
    (((y : ℤ) = 0 ∨ (y : ℤ) = (local_height : ℤ) - 1 ∨
      (x : ℤ) = 0 ∨ (x : ℤ) = (local_width : ℤ) - 1) →
      terrainAt (generate_local_map region_tiles chunk_x chunk_y chunk_width
          chunk_height local_width local_height noiseD noiseR rng) x y ≠
        TerrainType.water) ∧
    ((((local_width / 2 : ℕ) : ℤ) - 5 ≤ (x : ℤ) ∧
      (x : ℤ) ≤ ((local_width / 2 : ℕ) : ℤ) + 5 ∧
      ((local_height / 2 : ℕ) : ℤ) - 5 ≤ (y : ℤ) ∧
      (y : ℤ) ≤ ((local_height / 2 : ℕ) : ℤ) + 5) →
      (terrainAt (generate_local_map region_tiles chunk_x chunk_y chunk_width
          chunk_height local_width local_height noiseD noiseR rng) x y =
        TerrainType.grass ∨
       terrainAt (generate_local_map region_tiles chunk_x chunk_y chunk_width
          chunk_height local_width local_height noiseD noiseR rng) x y =
        TerrainType.dirt ∨
       terrainAt (generate_local_map region_tiles chunk_x chunk_y chunk_width
          chunk_height local_width local_height noiseD noiseR rng) x y =
        TerrainType.forest)) := by
  unfold generate_local_map
  dsimp only
  split_ifs with hc
  · constructor
    · intro _
      rw [terrainAt_fallback local_width local_height x y hx hy]
      decide
    · intro _
      exact Or.inl (terrainAt_fallback local_width local_height x y hx hy)
  · constructor
    · intro hedge
      rw [terrainAt_materializeGrid _ local_width local_height x y hx hy,
        place_resource_nodes_terrain]
      refine smooth_terrain_pres (fun t => t ≠ TerrainType.water) (by decide)
        _ local_width local_height (x : ℤ) (y : ℤ) ?_
      refine add_forests_pres (fun t => t ≠ TerrainType.water) (by decide)
        _ _ local_width local_height _ (x : ℤ) (y : ℤ) ?_
      exact ensure_border_no_water _ local_width local_height (x : ℤ) (y : ℤ)
        ⟨by omega, by omega⟩ ⟨by omega, by omega⟩ hedge
    · intro hcent
      rw [terrainAt_materializeGrid _ local_width local_height x y hx hy,
        place_resource_nodes_terrain]
      refine smooth_terrain_pres
        (fun t => t = TerrainType.grass ∨ t = TerrainType.dirt ∨
          t = TerrainType.forest)
        (Or.inl rfl) _ local_width local_height (x : ℤ) (y : ℤ) ?_
      refine add_forests_pres
        (fun t => t = TerrainType.grass ∨ t = TerrainType.dirt ∨
          t = TerrainType.forest)
        (Or.inr (Or.inr rfl)) _ _ local_width local_height _ (x : ℤ) (y : ℤ) ?_
      rcases ensure_center_grass_dirt _ local_width local_height (x : ℤ) (y : ℤ)
        ⟨by omega, by omega⟩ ⟨by omega, by omega⟩ ⟨hcent.1, hcent.2.1⟩
        ⟨hcent.2.2.1, hcent.2.2.2⟩ with hh | hh
      · exact Or.inl hh
      · exact Or.inr (Or.inl hh)

/-- A one-tile Grassland region used for the C1 counterexample run. -/
def c1Region : List (List RegionTile) :=
  [[{ x := 0, y := 0, elevation := 2/5, moisture := 2/5,
      biome := BiomeType.grassland, terrain_type := TerrainType.grass }]]

/-- A random stream for the C1 counterexample run: every `random()` draw is
0.9 and every `randint` offset is 0. -/
def c1Rng : Rng := { floats := fun _ => 9/10, ints := fun _ => 0 }

/-- Counterexample to C1 as stated: on a 3×3 local map over a Grassland
region (tree_density 0.1), with zero noise and the stream above, the map
center (1, 1) = (3 / 2, 3 / 2) — a cell of the 11×11 center block — comes
out Forest, not Grass or Dirt: `_add_forests` runs after the center
playability fix and converts center Grass to Forest. -/
theorem c1_counterexample :
    terrainAt (generate_local_map c1Region 0 0 3 3 3 3
      (fun _ _ => 0) (fun _ _ => 0) c1Rng) 1 1 = TerrainType.forest ∧
    (3 : ℕ) / 2 = 1 ∧
    TerrainType.forest ≠ TerrainType.grass ∧
    TerrainType.forest ≠ TerrainType.dirt := by
  with_unfolding_all decide

/-- Witness for C1 at a concrete input: the border cell (0, 0) of the same
concrete 3×3 generated map is non-Water by the amended theorem. -/
theorem c1_witness :
    terrainAt (generate_local_map c1Region 0 0 3 3 3 3
      (fun _ _ => 0) (fun _ _ => 0) c1Rng) 0 0 ≠ TerrainType.water :=
  (c1_local_map_playability c1Region 0 0 3 3 3 3 (fun _ _ => 0) (fun _ _ => 0)
      c1Rng 0 0 (by decide) (by decide)).1 (Or.inl (by decide))

end MyKingdom
